import Mathlib

/-!
Verification development for the `sdl3_gs` GPU safety layer.

The Rust sources are shallowly embedded:
* `SlotMap` (src/slot_map.rs) becomes a list of entries plus a free-list head;
  Rust panics (index out of bounds, removing a free slot, the `unreachable!`
  branch of `insert`) are modelled as `none`.
* Machine integers are `Nat`/`Int` with explicit `% 2^32` where u32 wrap-around
  matters; `u32::saturating_add` is `satAdd32`.
* Native SDL pointers are `Nat`, with `0` playing the null pointer.  Fresh
  native objects are drawn from a monotone counter `nextPtr`, and every native
  call made by the device code is recorded in a `trace` field, so that the
  theorems can speak about which native calls happened and in which order.
* Fallible native calls (`SDL_CreateGPUTransferBuffer`,
  `SDL_AcquireGPUCommandBuffer`, `SDL_BeginGPUCopyPass`,
  `SDL_SubmitGPUCommandBuffer`, fence submission and waiting, mapping) take
  their success as an explicit boolean oracle argument, mirroring the
  null/false checks of the source.
-/

namespace Sdl3Gs

/-- One entry of the slot registry: `Occupied(T)` or `Free { next_free }`
(src/slot_map.rs, `enum SlotEntry`). -/
inductive SlotEntry (T : Type) where
  | occupied (v : T)
  | free (nextFree : Int)
deriving DecidableEq, Repr

/-- The free-list-backed registry (src/slot_map.rs, `struct SlotMap`):
a backing sequence of slots and the head of the free list (`-1` = empty). -/
structure SlotMap (T : Type) where
  slots : List (SlotEntry T)
  firstFree : Int
deriving DecidableEq, Repr

/-- `SlotMap::default()`: empty backing vector, free list head `-1`. -/
def SlotMap.empty (T : Type) : SlotMap T := ⟨[], -1⟩

/-- `SlotMap::insert` (src/slot_map.rs:26-41).  Reuses the head of the free
list when non-negative, otherwise appends.  `none` models the panics of the
source (indexing out of bounds, or the `unreachable!` arm hit when the free
head points at an occupied slot). -/
def SlotMap.insert {T : Type} (m : SlotMap T) (v : T) : Option (Int × SlotMap T) :=
  if 0 ≤ m.firstFree then
    match m.slots.get? m.firstFree.toNat with
    | some (SlotEntry.free nf) =>
        some (m.firstFree, ⟨m.slots.set m.firstFree.toNat (SlotEntry.occupied v), nf⟩)
    | some (SlotEntry.occupied _) => none
    | none => none
  else
    some ((m.slots.length : Int), ⟨m.slots ++ [SlotEntry.occupied v], m.firstFree⟩)

/-- `SlotMap::remove` (src/slot_map.rs:47-55).  Replaces the slot by
`Free { next_free := firstFree }`, points the free head at it, and returns the
old value; `none` models the panic on an out-of-bounds index (a negative i32
handle becomes a huge usize in the source) or on a slot that is already free. -/
def SlotMap.remove {T : Type} (m : SlotMap T) (i : Int) : Option (T × SlotMap T) :=
  if 0 ≤ i then
    match m.slots.get? i.toNat with
    | some (SlotEntry.occupied v) =>
        some (v, ⟨m.slots.set i.toNat (SlotEntry.free m.firstFree), i⟩)
    | some (SlotEntry.free _) => none
    | none => none
  else
    none

/-- `SlotMap::get` (src/slot_map.rs:57-62); `none` models the panics on a
free slot or an out-of-bounds index. -/
def SlotMap.get {T : Type} (m : SlotMap T) (i : Int) : Option T :=
  if 0 ≤ i then
    match m.slots.get? i.toNat with
    | some (SlotEntry.occupied v) => some v
    | some (SlotEntry.free _) => none
    | none => none
  else
    none

/-- `SlotMap::get_mut` (src/slot_map.rs:64-69): same lookup discipline as
`get`, the mutable borrow itself having no counterpart in the model. -/
def SlotMap.getMut {T : Type} (m : SlotMap T) (i : Int) : Option T :=
  SlotMap.get m i

/-- `SlotMap::iter` (src/slot_map.rs:72-77): all occupied entries in storage
order, as `(index, value)` pairs, skipping free slots. -/
def SlotMap.iter {T : Type} (m : SlotMap T) : List (Int × T) :=
  m.slots.enum.filterMap fun p =>
    match p.2 with
    | SlotEntry.occupied v => some ((p.1 : Int), v)
    | SlotEntry.free _ => none

/-- `2^32`, the modulus of Rust's `u32`. -/
def U32 : Nat := 4294967296

/-- Rust's `u32::saturating_add` on values below `2^32`. -/
def satAdd32 (a b : Nat) : Nat := min (a + b) (U32 - 1)

/-- The native SDL GPU calls issued by the embedded device code, recorded in
chronological order in `DeviceState.trace`. -/
inductive NativeCall where
  | createTransferBuffer (size : Nat)
  | releaseTransferBuffer (p : Nat)
  | mapTransferBuffer (p : Nat)
  | unmapTransferBuffer (p : Nat)
  | uploadToGPUBuffer (dst : Nat) (off sz : Nat)
  | uploadToGPUTexture (dst : Nat)
  | downloadFromGPUBuffer (src : Nat) (off sz : Nat)
  | acquireGPUCommandBuffer (p : Nat)
  | beginGPUCopyPass (cmd : Nat)
  | endGPUCopyPass (cmd : Nat)
  | submitGPUCommandBuffer (cmd : Nat)
  | createGPUBuffer (size : Nat)
  | releaseGPUBuffer (p : Nat)
  | createGPUTexture (w h : Nat)
  | releaseGPUTexture (p : Nat)
  | submitAndAcquireFence (cmd : Nat)
  | waitForFence
  | releaseFence
  | cancelGPUCommandBuffer (cmd : Nat)
deriving DecidableEq, Repr

/-- `TextureSlot` (src/device.rs:812-815): native pointer plus cached
width/height. -/
structure TextureSlot where
  inner : Nat
  res : Nat × Nat
deriving DecidableEq, Repr

/-- `BufferSlot` (src/device.rs:829-832): native pointer plus the declared
byte size. -/
structure BufferSlot where
  inner : Nat
  size : Nat
deriving DecidableEq, Repr

/-- The observable state of a `Device` (src/device.rs:317-331): the texture
and buffer registries, the swapchain cell `(ptr, w, h)` with null = none
acquired, the tracked upload staging buffer `(ptr, capacity)`, the in-flight
command-buffer counter (`AtomicU32`, so a value below `2^32`), and the
pending-release list of superseded staging buffers.  `nextPtr` is the supply
of fresh native pointers and `trace` the log of native calls. -/
structure DeviceState where
  textures : SlotMap TextureSlot
  buffers : SlotMap BufferSlot
  swapchain : Nat × Nat × Nat
  uploadTransferBuffer : Nat × Nat
  cmdBufCount : Nat
  pendingTransferBuffers : List Nat
  nextPtr : Nat
  trace : List NativeCall
deriving DecidableEq, Repr

/-- A freshly created `Device` (src/device.rs:353-366), before any resource
was created: empty registries, null swapchain, null staging buffer, counter
zero, nothing pending. -/
def DeviceState.fresh : DeviceState :=
  ⟨SlotMap.empty _, SlotMap.empty _, (0, 0, 0), (0, 0), 0, [], 1, []⟩

/-- Record a native call in the trace. -/
def emit (c : NativeCall) (d : DeviceState) : DeviceState :=
  { d with trace := d.trace ++ [c] }

/-- Draw a fresh (non-null) native pointer. -/
def alloc (d : DeviceState) : Nat × DeviceState :=
  (d.nextPtr, { d with nextPtr := d.nextPtr + 1 })

/-- `Device::ensure_upload_transfer_buffer(size)` (src/device.rs:588-611).
If the current staging pointer is non-null and its tracked capacity covers
`size`, it is reused and the state is untouched.  Otherwise the current
pointer (when non-null) is pushed onto the pending-release list and a new
native transfer buffer of exactly `size` bytes is created; `createOk` is the
oracle for the native creation call: on failure the tracked pair is reset to
`(null, 0)` and the error is returned. -/
def DeviceState.ensureUploadTransferBuffer (d : DeviceState) (size : Nat)
    (createOk : Bool) : Except String Nat × DeviceState :=
  let current := d.uploadTransferBuffer.1
  let currentSize := d.uploadTransferBuffer.2
  if current ≠ 0 ∧ currentSize ≥ size then
    (Except.ok current, d)
  else
    let d1 := if current ≠ 0 then
        { d with pendingTransferBuffers := d.pendingTransferBuffers ++ [current] }
      else d
    let d2 := emit (NativeCall.createTransferBuffer size) d1
    if createOk then
      let (raw, d3) := alloc d2
      (Except.ok raw, { d3 with uploadTransferBuffer := (raw, size) })
    else
      (Except.error "SDL_CreateGPUTransferBuffer failed",
        { d2 with uploadTransferBuffer := (0, 0) })

/-- Success/failure oracle for the native calls an upload may make:
staging-buffer creation, and (on the internal, no-copy-pass path) command
buffer acquisition, copy-pass begin and submission. -/
structure UploadOracle where
  createOk : Bool
  acquireOk : Bool
  beginOk : Bool
  submitOk : Bool
deriving DecidableEq, Repr

/-- `Device::upload_to_buffer(copy_pass, buffer, offset, data)`
(src/device.rs:617-659).  `none` models the registry panic on an invalid
buffer handle.  The saturating range check runs before any native call and
returns the error with the state untouched.  With a copy pass, the copy is
recorded; without, a short-lived native command buffer is acquired, used and
submitted directly through the native API (no in-flight accounting). -/
def DeviceState.uploadToBuffer (d : DeviceState) (copyPass : Option Nat)
    (buffer : Int) (offset : Nat) (data : List Nat) (o : UploadOracle) :
    Option (Except String Unit × DeviceState) :=
  let size := data.length % U32
  match d.buffers.get buffer with
  | none => none
  | some slot =>
    if satAdd32 offset size > slot.size then
      some (Except.error "data exceeds buffer size", d)
    else
      match d.ensureUploadTransferBuffer size o.createOk with
      | (Except.error e, d1) => some (Except.error e, d1)
      | (Except.ok transfer, d1) =>
        let d2 := emit (NativeCall.mapTransferBuffer transfer) d1
        let d3 := emit (NativeCall.unmapTransferBuffer transfer) d2
        match copyPass with
        | some _ =>
          some (Except.ok (),
            emit (NativeCall.uploadToGPUBuffer slot.inner offset size) d3)
        | none =>
          if o.acquireOk then
            let (cmd, d4) := alloc d3
            let d5 := emit (NativeCall.acquireGPUCommandBuffer cmd) d4
            if o.beginOk then
              let d6 := emit (NativeCall.beginGPUCopyPass cmd) d5
              let d7 := emit (NativeCall.uploadToGPUBuffer slot.inner offset size) d6
              let d8 := emit (NativeCall.endGPUCopyPass cmd) d7
              let d9 := emit (NativeCall.submitGPUCommandBuffer cmd) d8
              if o.submitOk then
                some (Except.ok (), d9)
              else
                some (Except.error "SDL_SubmitGPUCommandBuffer failed", d9)
            else
              some (Except.error "SDL_BeginGPUCopyPass failed",
                emit (NativeCall.cancelGPUCommandBuffer cmd) d5)
          else
            some (Except.error "SDL_AcquireGPUCommandBuffer failed", d3)

/-- The reserved swapchain sentinel handle `Texture::SWAPCHAIN = Texture(-7777)`
(src/device.rs:875-878); `Texture` is a newtype over `i32`, modelled as `Int`. -/
def swapchainSentinel : Int := -7777

/-- `Device::texture_raw(handle)` (src/device.rs:393-400): the sentinel is
resolved from the per-device swapchain cell, with `none` modelling the
`assert!` fault when the stored pointer is null; every other handle goes
through the texture registry (whose panics are also `none`). -/
def DeviceState.textureRaw (d : DeviceState) (handle : Int) : Option Nat :=
  if handle = swapchainSentinel then
    if d.swapchain.1 = 0 then none else some d.swapchain.1
  else
    (d.textures.get handle).map (fun slot => slot.inner)

/-- `TextureRegion` (src/device.rs:161-171), with the texture as a registry
handle (or the swapchain sentinel). -/
structure TextureRegion where
  texture : Int
  mipLevel : Nat
  layer : Nat
  x : Nat
  y : Nat
  z : Nat
  w : Nat
  h : Nat
  d : Nat
deriving DecidableEq, Repr

/-- `Device::upload_to_texture(copy_pass, region, data)`
(src/device.rs:665-706).  Same staging discipline as `upload_to_buffer`, no
range check; `none` models the fault of resolving an invalid texture handle
(or the sentinel with no swapchain acquired) in `region.to_raw`. -/
def DeviceState.uploadToTexture (d : DeviceState) (copyPass : Option Nat)
    (region : TextureRegion) (data : List Nat) (o : UploadOracle) :
    Option (Except String Unit × DeviceState) :=
  let size := data.length % U32
  match d.ensureUploadTransferBuffer size o.createOk with
  | (Except.error e, d1) => some (Except.error e, d1)
  | (Except.ok transfer, d1) =>
    let d2 := emit (NativeCall.mapTransferBuffer transfer) d1
    let d3 := emit (NativeCall.unmapTransferBuffer transfer) d2
    match d3.textureRaw region.texture with
    | none => none
    | some dst =>
      match copyPass with
      | some _ =>
        some (Except.ok (), emit (NativeCall.uploadToGPUTexture dst) d3)
      | none =>
        if o.acquireOk then
          let (cmd, d4) := alloc d3
          let d5 := emit (NativeCall.acquireGPUCommandBuffer cmd) d4
          if o.beginOk then
            let d6 := emit (NativeCall.beginGPUCopyPass cmd) d5
            let d7 := emit (NativeCall.uploadToGPUTexture dst) d6
            let d8 := emit (NativeCall.endGPUCopyPass cmd) d7
            let d9 := emit (NativeCall.submitGPUCommandBuffer cmd) d8
            if o.submitOk then
              some (Except.ok (), d9)
            else
              some (Except.error "SDL_SubmitGPUCommandBuffer failed", d9)
          else
            some (Except.error "SDL_BeginGPUCopyPass failed",
              emit (NativeCall.cancelGPUCommandBuffer cmd) d5)
        else
          some (Except.error "SDL_AcquireGPUCommandBuffer failed", d3)

/-- Success/failure oracle for the native calls of a download: transfer
buffer creation, command buffer acquisition, copy-pass begin, fenced
submission, fence wait and mapping; `contents` is the abstract byte content
of the mapped download buffer. -/
structure DownloadOracle where
  createOk : Bool
  acquireOk : Bool
  beginOk : Bool
  submitOk : Bool
  waitOk : Bool
  mapOk : Bool
  contents : Nat → Nat

/-- `Device::download_from_buffer(buffer, offset, size)`
(src/device.rs:711-776).  `size = 0` is substituted by `buf_size - offset`
(u32 subtraction; its underflow, a debug overflow panic, is `none`), then the
same saturating range check as upload runs before any native call.  On
success the result is the `size` bytes read from the mapped download buffer. -/
def DeviceState.downloadFromBuffer (d : DeviceState) (buffer : Int)
    (offset size0 : Nat) (o : DownloadOracle) :
    Option (Except String (List Nat) × DeviceState) :=
  match d.buffers.get buffer with
  | none => none
  | some slot =>
    if size0 = 0 ∧ slot.size < offset then
      none
    else
      let size := if size0 = 0 then slot.size - offset else size0
      if satAdd32 offset size > slot.size then
        some (Except.error "requested range exceeds buffer size", d)
      else
        let d1 := emit (NativeCall.createTransferBuffer size) d
        if o.createOk then
          let (transfer, d2) := alloc d1
          if o.acquireOk then
            let (cmd, d3) := alloc d2
            let d4 := emit (NativeCall.acquireGPUCommandBuffer cmd) d3
            if o.beginOk then
              let d5 := emit (NativeCall.beginGPUCopyPass cmd) d4
              let d6 := emit (NativeCall.downloadFromGPUBuffer slot.inner offset size) d5
              let d7 := emit (NativeCall.endGPUCopyPass cmd) d6
              let d8 := emit (NativeCall.submitAndAcquireFence cmd) d7
              if o.submitOk then
                let d9 := emit NativeCall.waitForFence d8
                if o.waitOk then
                  let d10 := emit NativeCall.releaseFence d9
                  let d11 := emit (NativeCall.mapTransferBuffer transfer) d10
                  if o.mapOk then
                    let data := (List.range size).map o.contents
                    let d12 := emit (NativeCall.unmapTransferBuffer transfer) d11
                    let d13 := emit (NativeCall.releaseTransferBuffer transfer) d12
                    some (Except.ok data, d13)
                  else
                    some (Except.error "SDL_MapGPUTransferBuffer failed",
                      emit (NativeCall.releaseTransferBuffer transfer) d11)
                else
                  let d10 := emit NativeCall.releaseFence d9
                  some (Except.error "SDL_WaitForGPUFences failed",
                    emit (NativeCall.releaseTransferBuffer transfer) d10)
              else
                some (Except.error "SDL_SubmitGPUCommandBufferAndAcquireFence failed",
                  emit (NativeCall.releaseTransferBuffer transfer) d8)
            else
              let d5 := emit (NativeCall.cancelGPUCommandBuffer cmd) d4
              some (Except.error "SDL_BeginGPUCopyPass failed",
                emit (NativeCall.releaseTransferBuffer transfer) d5)
          else
            some (Except.error "SDL_AcquireGPUCommandBuffer failed",
              emit (NativeCall.releaseTransferBuffer transfer) d2)
        else
          some (Except.error "SDL_CreateGPUTransferBuffer (download) failed", d1)

/-- A `CommandBuffer` value (src/device.rs:947-951): the native pointer and
the `submitted` flag consulted by `Drop`. -/
structure CmdBuf where
  inner : Nat
  submitted : Bool
deriving DecidableEq, Repr

/-- `Device::on_command_buffer_done` (src/device.rs:800-809): decrement the
in-flight counter (u32, wrapping) and, exactly when the previous value was 1,
release and drain the whole pending list. -/
def DeviceState.onCommandBufferDone (d : DeviceState) : DeviceState :=
  let prev := d.cmdBufCount
  let d1 := { d with cmdBufCount := (d.cmdBufCount + (U32 - 1)) % U32 }
  if prev = 1 then
    let d2 := d1.pendingTransferBuffers.foldl
      (fun dd tb => emit (NativeCall.releaseTransferBuffer tb) dd) d1
    { d2 with pendingTransferBuffers := [] }
  else
    d1

/-- `Device::acquire_command_buffer` (src/device.rs:787-796): on native
success (oracle `ok`), increment the in-flight counter and hand out a
not-yet-submitted buffer. -/
def DeviceState.acquireCommandBuffer (d : DeviceState) (ok : Bool) :
    Except String CmdBuf × DeviceState :=
  if ok then
    let (raw, d1) := alloc d
    let d2 := emit (NativeCall.acquireGPUCommandBuffer raw) d1
    (Except.ok ⟨raw, false⟩,
      { d2 with cmdBufCount := (d2.cmdBufCount + 1) % U32 })
  else
    (Except.error "SDL_AcquireGPUCommandBuffer failed", d)

/-- `impl Drop for CommandBuffer` (src/device.rs:1318-1328): unconditionally
clear the swapchain cell; when the buffer was never submitted, issue the
native cancel and run the in-flight bookkeeping. -/
def CmdBuf.dropRun (cb : CmdBuf) (d : DeviceState) : DeviceState :=
  let d1 := { d with swapchain := (0, 0, 0) }
  if cb.submitted then
    d1
  else
    (emit (NativeCall.cancelGPUCommandBuffer cb.inner) d1).onCommandBufferDone

/-- `CommandBuffer::submit` (src/device.rs:995-1006): mark submitted, run the
in-flight bookkeeping, then invoke the native submit (oracle `nativeOk`); the
error, if any, is returned after the accounting, and the buffer's `Drop`
(which no longer cancels) runs on both paths before control returns. -/
def CmdBuf.submit (cb : CmdBuf) (d : DeviceState) (nativeOk : Bool) :
    Except String Unit × DeviceState :=
  let cb1 : CmdBuf := { cb with submitted := true }
  let d1 := d.onCommandBufferDone
  let d2 := emit (NativeCall.submitGPUCommandBuffer cb1.inner) d1
  if nativeOk then
    (Except.ok (), cb1.dropRun d2)
  else
    (Except.error "SDL_SubmitGPUCommandBuffer failed", cb1.dropRun d2)

/-- `CommandBuffer::acquire_swapchain_texture` (src/device.rs:962-993): the
native acquire (oracle `ok`) yields a texture pointer (null when no image is
available this tick) and a resolution; on success the triple is stored in the
per-device swapchain cell and the sentinel handle (or `none`) is returned. -/
def DeviceState.acquireSwapchainTexture (d : DeviceState) (ok : Bool)
    (texture : Nat) (w h : Nat) : Except String (Option Int) × DeviceState :=
  if ok then
    let d1 := { d with swapchain := (texture, w, h) }
    if texture = 0 then (Except.ok none, d1)
    else (Except.ok (some swapchainSentinel), d1)
  else
    (Except.error "SDL_AcquireGPUSwapchainTexture failed", d)

/-- `Device::create_buffer` (src/device.rs:537-551): on native success
(oracle `ok`) the raw pointer and declared size are inserted into the buffer
registry; the registry's `unreachable!` panic is `none`. -/
def DeviceState.createBuffer (d : DeviceState) (size : Nat) (ok : Bool) :
    Option (Except String Int × DeviceState) :=
  let d0 := emit (NativeCall.createGPUBuffer size) d
  if ok then
    let (raw, d1) := alloc d0
    match d1.buffers.insert ⟨raw, size⟩ with
    | some (idx, m) => some (Except.ok idx, { d1 with buffers := m })
    | none => none
  else
    some (Except.error "SDL_CreateGPUBuffer failed", d0)

/-- `Device::destroy_buffer` (src/device.rs:553-558): remove the slot
(faulting on misuse, modelled as `none`) and release the native object. -/
def DeviceState.destroyBuffer (d : DeviceState) (handle : Int) :
    Option DeviceState :=
  match d.buffers.remove handle with
  | some (slot, m) =>
    some (emit (NativeCall.releaseGPUBuffer slot.inner) { d with buffers := m })
  | none => none

/-- `Device::create_texture` (src/device.rs:371-384): on native success the
raw pointer and cached resolution are inserted into the texture registry. -/
def DeviceState.createTexture (d : DeviceState) (w h : Nat) (ok : Bool) :
    Option (Except String Int × DeviceState) :=
  let d0 := emit (NativeCall.createGPUTexture w h) d
  if ok then
    let (raw, d1) := alloc d0
    match d1.textures.insert ⟨raw, (w, h)⟩ with
    | some (idx, m) => some (Except.ok idx, { d1 with textures := m })
    | none => none
  else
    some (Except.error "SDL_CreateGPUTexture failed", d0)

/-- `Device::destroy_texture` (src/device.rs:386-391). -/
def DeviceState.destroyTexture (d : DeviceState) (handle : Int) :
    Option DeviceState :=
  match d.textures.remove handle with
  | some (slot, m) =>
    some (emit (NativeCall.releaseGPUTexture slot.inner) { d with textures := m })
  | none => none

/-- One operation of the device API, with the outcomes of its native calls
spelled out, so that a whole usage of the device is a list of `DevOp`s. -/
inductive DevOp where
  | opUploadToBuffer (copyPass : Option Nat) (buffer : Int) (offset : Nat)
      (data : List Nat) (o : UploadOracle)
  | opUploadToTexture (copyPass : Option Nat) (region : TextureRegion)
      (data : List Nat) (o : UploadOracle)
  | opDownloadFromBuffer (buffer : Int) (offset size : Nat) (o : DownloadOracle)
  | opCreateBuffer (size : Nat) (ok : Bool)
  | opDestroyBuffer (handle : Int)
  | opCreateTexture (w h : Nat) (ok : Bool)
  | opDestroyTexture (handle : Int)
  | opAcquire (ok : Bool)
  | opSubmit (inner : Nat) (ok : Bool)
  | opDrop (inner : Nat) (submitted : Bool)
  | opAcquireSwapchain (ok : Bool) (texture : Nat) (w h : Nat)

/-- Effect of one operation on the device state; `none` once any modelled
panic fires.  `opSubmit` submits an outstanding (hence not yet submitted)
command buffer, `opDrop` drops one with the given `submitted` flag. -/
def DevOp.step (op : DevOp) (d : DeviceState) : Option DeviceState :=
  match op with
  | DevOp.opUploadToBuffer cp b off data o =>
    (d.uploadToBuffer cp b off data o).map (fun r => r.2)
  | DevOp.opUploadToTexture cp region data o =>
    (d.uploadToTexture cp region data o).map (fun r => r.2)
  | DevOp.opDownloadFromBuffer b off sz o =>
    (d.downloadFromBuffer b off sz o).map (fun r => r.2)
  | DevOp.opCreateBuffer sz ok => (d.createBuffer sz ok).map (fun r => r.2)
  | DevOp.opDestroyBuffer h => d.destroyBuffer h
  | DevOp.opCreateTexture w h ok => (d.createTexture w h ok).map (fun r => r.2)
  | DevOp.opDestroyTexture h => d.destroyTexture h
  | DevOp.opAcquire ok => some (d.acquireCommandBuffer ok).2
  | DevOp.opSubmit inner ok => some (CmdBuf.submit ⟨inner, false⟩ d ok).2
  | DevOp.opDrop inner sub => some (CmdBuf.dropRun ⟨inner, sub⟩ d)
  | DevOp.opAcquireSwapchain ok t w h =>
    some (d.acquireSwapchainTexture ok t w h).2

/-- Run a sequence of device operations. -/
def run (ops : List DevOp) (d : DeviceState) : Option DeviceState :=
  match ops with
  | [] => some d
  | op :: rest => (op.step d).bind (run rest)

/-- Basic well-formedness of a device state, true of a fresh device and kept
by every operation: the fresh-pointer supply is non-null, and a null tracked
staging pointer comes with tracked capacity zero (the source only ever stores
`(null, 0)` or a created buffer with its size). -/
def DeviceState.WF (d : DeviceState) : Prop :=
  0 < d.nextPtr ∧ (d.uploadTransferBuffer.1 = 0 → d.uploadTransferBuffer.2 = 0)

instance (d : DeviceState) : Decidable d.WF := by
  unfold DeviceState.WF
  infer_instance

/-- Number of `SDL_CreateGPUTransferBuffer` calls in a trace; a staging
*growth* event is such a creation that supersedes an existing buffer, so on a
device whose staging buffer was created once, growth events are creations
beyond the first. -/
def createEvents (t : List NativeCall) : Nat :=
  t.countP fun c =>
    match c with
    | NativeCall.createTransferBuffer _ => true
    | _ => false

/-- Number of `SDL_ReleaseGPUTransferBuffer` calls in a trace. -/
def releaseEvents (t : List NativeCall) : Nat :=
  t.countP fun c =>
    match c with
    | NativeCall.releaseTransferBuffer _ => true
    | _ => false

/-- The native staging-buffer creations of this operation (if any) succeed;
only upload operations create the shared staging buffer. -/
def DevOp.createsSucceed : DevOp → Prop
  | DevOp.opUploadToBuffer _ _ _ _ o => o.createOk = true
  | DevOp.opUploadToTexture _ _ _ o => o.createOk = true
  | _ => True

instance (op : DevOp) : Decidable op.createsSucceed := by
  unfold DevOp.createsSucceed
  cases op <;> infer_instance

/-- `Device::texture_res(handle)` (src/device.rs:402-409): like `texture_raw`
but returning the cached resolution; the sentinel reads the swapchain cell and
faults (`none`) when the stored pointer is null. -/
def DeviceState.textureRes (d : DeviceState) (handle : Int) : Option (Nat × Nat) :=
  if handle = swapchainSentinel then
    if d.swapchain.1 = 0 then none else some (d.swapchain.2.1, d.swapchain.2.2)
  else
    (d.textures.get handle).map (fun slot => slot.res)

/-! ### Concrete test fixtures -/

/-- All native calls of an upload succeed. -/
def okOracle : UploadOracle := ⟨true, true, true, true⟩

/-- All native calls of a download succeed; the mapped buffer reads zeros. -/
def okDownloadOracle : DownloadOracle := ⟨true, true, true, true, true, true, fun _ => 0⟩

/-- A device with a 16-byte staging buffer already tracked (pointer 3). -/
def c1Dev0 : DeviceState :=
  { DeviceState.fresh with uploadTransferBuffer := (3, 16), nextPtr := 4 }

/-- `c1Dev0` after acquiring two command buffers (pointers 4 and 5). -/
def c1Dev2 : DeviceState :=
  (((c1Dev0.acquireCommandBuffer true).2).acquireCommandBuffer true).2

/-- `c1Dev2` after growing the staging buffer to 100 bytes. -/
def c1Dev3 : DeviceState := (c1Dev2.ensureUploadTransferBuffer 100 true).2

/-- `c1Dev3` after submitting the first command buffer. -/
def c1Dev4 : DeviceState := (CmdBuf.submit ⟨4, false⟩ c1Dev3 true).2

/-- `c1Dev4` after submitting the second command buffer. -/
def c1Dev5 : DeviceState := (CmdBuf.submit ⟨5, false⟩ c1Dev4 true).2

/-- A device with one 64-byte GPU buffer at handle 0 and no staging buffer. -/
def bufDev64 : DeviceState :=
  { DeviceState.fresh with
      buffers := ⟨[SlotEntry.occupied ⟨1, 64⟩], -1⟩, nextPtr := 2 }

/-- The three uploads (16 then 4 then 64 bytes) of the staging-growth
scenario, all native calls succeeding. -/
def c2Ops : List DevOp :=
  [DevOp.opUploadToBuffer none 0 0 (List.replicate 16 0) okOracle,
   DevOp.opUploadToBuffer none 0 0 (List.replicate 4 0) okOracle,
   DevOp.opUploadToBuffer none 0 0 (List.replicate 64 0) okOracle]

/-- The device after running the staging-growth scenario on `bufDev64`. -/
def c2Dev3 : DeviceState := (run c2Ops bufDev64).getD DeviceState.fresh

/-- A device with a 64-byte buffer and a 16-byte staging buffer (pointer 2). -/
def capDev16 : DeviceState :=
  { DeviceState.fresh with
      buffers := ⟨[SlotEntry.occupied ⟨1, 64⟩], -1⟩,
      uploadTransferBuffer := (2, 16), nextPtr := 3 }

/-- A device with one GPU buffer of the maximal declared size
`u32::MAX = 4294967295` at handle 0. -/
def bufDevMax : DeviceState :=
  { DeviceState.fresh with
      buffers := ⟨[SlotEntry.occupied ⟨1, 4294967295⟩], -1⟩, nextPtr := 2 }

/-- A device with one command buffer in flight and a pending staging
pointer, for exercising the internal-upload path. -/
def c10Dev0 : DeviceState :=
  { capDev16 with cmdBufCount := 1, pendingTransferBuffers := [9] }

/-- `c10Dev0` after a 4-byte internal (no copy pass) upload. -/
def c10Dev1 : DeviceState :=
  ((c10Dev0.uploadToBuffer none 0 0 [5, 5, 5, 5] okOracle).getD
    (Except.ok (), DeviceState.fresh)).2

/-- `capDev16` after an upload whose native staging-buffer creation fails:
the tracked staging pair is reset to `(null, 0)`. -/
def capDev16Fail : DeviceState :=
  (run [DevOp.opUploadToBuffer none 0 0 (List.replicate 64 0)
    ⟨false, true, true, true⟩] capDev16).getD DeviceState.fresh

/-- `bufDev64` after downloading the rest of the buffer from offset 10. -/
def c6Dev1 : DeviceState :=
  ((bufDev64.downloadFromBuffer 0 10 0 okDownloadOracle).getD
    (Except.ok [], DeviceState.fresh)).2

/-! ## Helper lemmas for the slot registry -/

/-- Characterisation of a successful `SlotMap.remove`: the handle must be a
non-negative in-bounds index of an occupied slot; the slot becomes the new
free head, pointing at the old one. -/
theorem SlotMap.remove_eq_some_iff {T : Type} (m : SlotMap T) (i : Int) (v : T)
    (m' : SlotMap T) :
    m.remove i = some (v, m') ↔
      0 ≤ i ∧ m.slots.get? i.toNat = some (SlotEntry.occupied v) ∧
        m' = ⟨m.slots.set i.toNat (SlotEntry.free m.firstFree), i⟩ := by
  unfold SlotMap.remove
  split
  case isTrue h =>
    cases hg : m.slots.get? i.toNat with
    | none => simp [hg, h]
    | some e =>
      cases e with
      | occupied w =>
        simp only [hg, h, Option.some.injEq, Prod.mk.injEq, SlotEntry.occupied.injEq,
          true_and]
        constructor
        · rintro ⟨h1, h2⟩; exact ⟨h1, h2.symm⟩
        · rintro ⟨h1, h2⟩; exact ⟨h1, h2.symm⟩
      | free nf => simp [hg, h]
  case isFalse h => simp [h]

/-- Characterisation of a successful `SlotMap.get`. -/
theorem SlotMap.get_eq_some_iff {T : Type} (m : SlotMap T) (i : Int) (v : T) :
    m.get i = some v ↔
      0 ≤ i ∧ m.slots.get? i.toNat = some (SlotEntry.occupied v) := by
  unfold SlotMap.get
  split
  case isTrue h =>
    cases hg : m.slots.get? i.toNat with
    | none => simp [hg, h]
    | some e => cases e with
      | occupied w => simp [hg, h, eq_comm]
      | free nf => simp [hg, h]
  case isFalse h => simp [h]

/-- `remove` faults (panics) on a slot that is already free. -/
theorem SlotMap.remove_free {T : Type} (m : SlotMap T) (i nf : Int)
    (hg : m.slots.get? i.toNat = some (SlotEntry.free nf)) :
    m.remove i = none := by
  rw [List.get?_eq_getElem?] at hg
  unfold SlotMap.remove
  split
  · simp [hg]
  · rfl

/-- `remove` faults on an out-of-bounds handle (negative handles become huge
indices through the `as usize` cast of the source). -/
theorem SlotMap.remove_oob {T : Type} (m : SlotMap T) (i : Int)
    (h : i < 0 ∨ m.slots.length ≤ i.toNat) :
    m.remove i = none := by
  unfold SlotMap.remove
  rcases h with h | h
  · simp [not_le.mpr h]
  · split
    · simp [List.get?_eq_getElem? .. ▸ List.get?_eq_none.mpr h]
    · rfl

/-- `get` faults on a free slot. -/
theorem SlotMap.get_free {T : Type} (m : SlotMap T) (i nf : Int)
    (hg : m.slots.get? i.toNat = some (SlotEntry.free nf)) :
    m.get i = none := by
  rw [List.get?_eq_getElem?] at hg
  unfold SlotMap.get
  split
  · simp [hg]
  · rfl

/-- `get` faults on an out-of-bounds handle. -/
theorem SlotMap.get_oob {T : Type} (m : SlotMap T) (i : Int)
    (h : i < 0 ∨ m.slots.length ≤ i.toNat) :
    m.get i = none := by
  unfold SlotMap.get
  rcases h with h | h
  · simp [not_le.mpr h]
  · split
    · simp [List.get?_eq_getElem? .. ▸ List.get?_eq_none.mpr h]
    · rfl

/-- An index whose lookup succeeds is in bounds. -/
theorem SlotMap.lt_of_get?_eq_some {T : Type} {l : List (SlotEntry T)} {n : Nat}
    {e : SlotEntry T} (h : l.get? n = some e) : n < l.length := by
  by_contra hge
  rw [List.get?_eq_none.mpr (le_of_not_lt hge)] at h
  cases h

/-- After a successful `remove`, inserting reuses exactly the removed slot and
does not grow the backing sequence. -/
theorem SlotMap.insert_reuses_removed {T : Type} (m m' : SlotMap T) (i : Int)
    (w v : T) (h : m.remove i = some (w, m')) :
    m'.insert v =
      some (i, ⟨m'.slots.set i.toNat (SlotEntry.occupied v), m.firstFree⟩) ∧
    (m'.slots.set i.toNat (SlotEntry.occupied v)).length = m'.slots.length := by
  rw [SlotMap.remove_eq_some_iff] at h
  obtain ⟨h0, hg, hm⟩ := h
  have hlt : i.toNat < m.slots.length := SlotMap.lt_of_get?_eq_some hg
  subst hm
  constructor
  · unfold SlotMap.insert
    simp only [h0, if_pos]
    rw [List.get?_set_eq_of_lt _ hlt]
  · simp [List.length_set]

/-! ## Claims about the slot registry -/

/-- C3: on an empty slot registry, inserting 10, 20, 30 returns the strictly
increasing handles 0, 1, 2; after removing handle 1 (the second value), the
next insert returns handle 1 again (the most recently freed slot is reused,
LIFO, before the backing sequence grows — also stated in general); iterating
afterwards yields exactly the occupied entries in storage (index) order, with
the new value at the reused handle, skipping free slots. -/
theorem claim_C3_handle_reuse :
    ((SlotMap.empty Nat).insert 10 =
        some (0, ⟨[SlotEntry.occupied 10], -1⟩) ∧
      SlotMap.insert ⟨[SlotEntry.occupied 10], -1⟩ 20 =
        some (1, ⟨[SlotEntry.occupied 10, SlotEntry.occupied 20], -1⟩) ∧
      SlotMap.insert ⟨[SlotEntry.occupied 10, SlotEntry.occupied 20], -1⟩ 30 =
        some (2, ⟨[SlotEntry.occupied 10, SlotEntry.occupied 20,
          SlotEntry.occupied 30], -1⟩) ∧
      SlotMap.remove ⟨[SlotEntry.occupied 10, SlotEntry.occupied 20,
          SlotEntry.occupied 30], -1⟩ 1 =
        some (20, ⟨[SlotEntry.occupied 10, SlotEntry.free (-1),
          SlotEntry.occupied 30], 1⟩) ∧
      SlotMap.insert ⟨[SlotEntry.occupied 10, SlotEntry.free (-1),
          SlotEntry.occupied 30], 1⟩ 40 =
        some (1, ⟨[SlotEntry.occupied 10, SlotEntry.occupied 40,
          SlotEntry.occupied 30], -1⟩) ∧
      SlotMap.iter ⟨[SlotEntry.occupied 10, SlotEntry.occupied 40,
          SlotEntry.occupied 30], -1⟩ = [(0, 10), (1, 40), (2, 30)]) ∧
    ∀ (m m' : SlotMap Nat) (i : Int) (w v : Nat),
      m.remove i = some (w, m') →
      ∃ m'', m'.insert v = some (i, m'') ∧ m''.slots.length = m'.slots.length := by
  constructor
  · exact ⟨by decide, by decide, by decide, by decide, by decide, by decide⟩
  · intro m m' i w v h
    obtain ⟨h1, h2⟩ := SlotMap.insert_reuses_removed m m' i w v h
    exact ⟨_, h1, h2⟩

/-- Witness for C3's general reuse conjunct at a concrete registry. -/
theorem claim_C3_handle_reuse_witness :
    ∃ m'', SlotMap.insert (⟨[SlotEntry.free (-1)], 0⟩ : SlotMap Nat) 5 =
      some (0, m'') ∧ m''.slots.length = 1 :=
  claim_C3_handle_reuse.2 ⟨[SlotEntry.occupied 9], -1⟩ ⟨[SlotEntry.free (-1)], 0⟩
    0 9 5 (by decide)

/-- C7: slot-registry misuse is a fault (modelled `none`), not a recoverable
error: removing a handle whose slot is already free faults (hence the second
of two removes of the same handle faults), removing or reading out of bounds
faults, `get`/`get_mut` on a free or out-of-bounds handle faults, and a valid
handle yields exactly its own slot's value. -/
theorem claim_C7_registry_misuse_faults :
    (∀ (T : Type) (m : SlotMap T) (i nf : Int),
        m.slots.get? i.toNat = some (SlotEntry.free nf) →
        m.remove i = none ∧ m.get i = none ∧ m.getMut i = none) ∧
    (∀ (T : Type) (m : SlotMap T) (i : Int),
        i < 0 ∨ m.slots.length ≤ i.toNat →
        m.remove i = none ∧ m.get i = none ∧ m.getMut i = none) ∧
    (∀ (T : Type) (m m' : SlotMap T) (i : Int) (v : T),
        m.remove i = some (v, m') → m'.remove i = none) ∧
    (∀ (T : Type) (m : SlotMap T) (i : Int) (v : T),
        0 ≤ i → m.slots.get? i.toNat = some (SlotEntry.occupied v) →
        m.get i = some v ∧ m.getMut i = some v) := by
  refine ⟨?_, ?_, ?_, ?_⟩
  · intro T m i nf hg
    exact ⟨SlotMap.remove_free m i nf hg, SlotMap.get_free m i nf hg,
      SlotMap.get_free m i nf hg⟩
  · intro T m i h
    exact ⟨SlotMap.remove_oob m i h, SlotMap.get_oob m i h, SlotMap.get_oob m i h⟩
  · intro T m m' i v h
    rw [SlotMap.remove_eq_some_iff] at h
    obtain ⟨h0, hg, hm⟩ := h
    have hlt : i.toNat < m.slots.length := SlotMap.lt_of_get?_eq_some hg
    apply SlotMap.remove_free m' i m.firstFree
    rw [hm]
    exact List.get?_set_eq_of_lt _ hlt
  · intro T m i v h0 hg
    have hv := (SlotMap.get_eq_some_iff m i v).mpr ⟨h0, hg⟩
    exact ⟨hv, hv⟩

/-- Witness for C7 at concrete registries: a freed slot, a negative handle,
a double free, and a valid lookup. -/
theorem claim_C7_registry_misuse_faults_witness :
    ((⟨[SlotEntry.free (-1)], 0⟩ : SlotMap Nat).remove 0 = none ∧
      (⟨[SlotEntry.free (-1)], 0⟩ : SlotMap Nat).get 0 = none ∧
      (⟨[SlotEntry.free (-1)], 0⟩ : SlotMap Nat).getMut 0 = none) ∧
    ((⟨[SlotEntry.occupied 3], -1⟩ : SlotMap Nat).remove (-2) = none ∧
      (⟨[SlotEntry.occupied 3], -1⟩ : SlotMap Nat).get (-2) = none ∧
      (⟨[SlotEntry.occupied 3], -1⟩ : SlotMap Nat).getMut (-2) = none) ∧
    (⟨[SlotEntry.free (-1)], 0⟩ : SlotMap Nat).remove 0 = none ∧
    ((⟨[SlotEntry.occupied 3], -1⟩ : SlotMap Nat).get 0 = some 3 ∧
      (⟨[SlotEntry.occupied 3], -1⟩ : SlotMap Nat).getMut 0 = some 3) :=
  ⟨claim_C7_registry_misuse_faults.1 Nat _ 0 (-1) (by decide),
    claim_C7_registry_misuse_faults.2.1 Nat _ (-2) (Or.inl (by decide)),
    claim_C7_registry_misuse_faults.2.2.1 Nat ⟨[SlotEntry.occupied 7], -1⟩ _ 0 7
      (by decide),
    claim_C7_registry_misuse_faults.2.2.2 Nat _ 0 3 (by decide) (by decide)⟩

end Sdl3Gs

namespace Sdl3Gs

/-! ## Projection lemmas for the state helpers -/

@[simp] theorem emit_textures (c : NativeCall) (d : DeviceState) :
    (emit c d).textures = d.textures := rfl

@[simp] theorem emit_buffers (c : NativeCall) (d : DeviceState) :
    (emit c d).buffers = d.buffers := rfl

@[simp] theorem emit_swapchain (c : NativeCall) (d : DeviceState) :
    (emit c d).swapchain = d.swapchain := rfl

@[simp] theorem emit_utb (c : NativeCall) (d : DeviceState) :
    (emit c d).uploadTransferBuffer = d.uploadTransferBuffer := rfl

@[simp] theorem emit_cmdBufCount (c : NativeCall) (d : DeviceState) :
    (emit c d).cmdBufCount = d.cmdBufCount := rfl

@[simp] theorem emit_pending (c : NativeCall) (d : DeviceState) :
    (emit c d).pendingTransferBuffers = d.pendingTransferBuffers := rfl

@[simp] theorem emit_nextPtr (c : NativeCall) (d : DeviceState) :
    (emit c d).nextPtr = d.nextPtr := rfl

@[simp] theorem emit_trace (c : NativeCall) (d : DeviceState) :
    (emit c d).trace = d.trace ++ [c] := rfl

@[simp] theorem alloc_fst (d : DeviceState) : (alloc d).1 = d.nextPtr := rfl

@[simp] theorem alloc_textures (d : DeviceState) :
    (alloc d).2.textures = d.textures := rfl

@[simp] theorem alloc_buffers (d : DeviceState) :
    (alloc d).2.buffers = d.buffers := rfl

@[simp] theorem alloc_swapchain (d : DeviceState) :
    (alloc d).2.swapchain = d.swapchain := rfl

@[simp] theorem alloc_utb (d : DeviceState) :
    (alloc d).2.uploadTransferBuffer = d.uploadTransferBuffer := rfl

@[simp] theorem alloc_cmdBufCount (d : DeviceState) :
    (alloc d).2.cmdBufCount = d.cmdBufCount := rfl

@[simp] theorem alloc_pending (d : DeviceState) :
    (alloc d).2.pendingTransferBuffers = d.pendingTransferBuffers := rfl

@[simp] theorem alloc_nextPtr (d : DeviceState) :
    (alloc d).2.nextPtr = d.nextPtr + 1 := rfl

@[simp] theorem alloc_trace (d : DeviceState) :
    (alloc d).2.trace = d.trace := rfl

/-- `releaseEvents` distributes over trace concatenation. -/
theorem releaseEvents_append (t1 t2 : List NativeCall) :
    releaseEvents (t1 ++ t2) = releaseEvents t1 + releaseEvents t2 :=
  List.countP_append ..

theorem foldl_emit_release (d : DeviceState) (l : List Nat) :
    l.foldl (fun dd tb => emit (NativeCall.releaseTransferBuffer tb) dd) d =
      { d with trace := d.trace ++ l.map NativeCall.releaseTransferBuffer } := by
  induction l generalizing d with
  | nil => simp
  | cons p rest ih =>
    rw [List.foldl_cons, ih]
    simp [emit]

end Sdl3Gs

namespace Sdl3Gs

theorem ensure_frame (d : DeviceState) (s : Nat) (ok : Bool) :
    ((d.ensureUploadTransferBuffer s ok).2.cmdBufCount = d.cmdBufCount) ∧
    ((d.ensureUploadTransferBuffer s ok).2.swapchain = d.swapchain) ∧
    ((d.ensureUploadTransferBuffer s ok).2.buffers = d.buffers) ∧
    ((d.ensureUploadTransferBuffer s ok).2.textures = d.textures) ∧
    (releaseEvents (d.ensureUploadTransferBuffer s ok).2.trace =
      releaseEvents d.trace) ∧
    ((d.ensureUploadTransferBuffer s ok).2.pendingTransferBuffers =
        d.pendingTransferBuffers ∨
      (d.ensureUploadTransferBuffer s ok).2.pendingTransferBuffers =
        d.pendingTransferBuffers ++ [d.uploadTransferBuffer.1]) ∧
    (d.nextPtr ≤ (d.ensureUploadTransferBuffer s ok).2.nextPtr) := by
  by_cases hA : d.uploadTransferBuffer.1 ≠ 0 ∧ d.uploadTransferBuffer.2 ≥ s
  · simp [DeviceState.ensureUploadTransferBuffer, hA]
  · by_cases hB : d.uploadTransferBuffer.1 = 0
    · cases ok <;>
        simp [DeviceState.ensureUploadTransferBuffer, hA, hB,
          releaseEvents, List.countP_append]
    · have hs : ¬ s ≤ d.uploadTransferBuffer.2 := fun h => hA ⟨hB, h⟩
      cases ok <;>
        simp [DeviceState.ensureUploadTransferBuffer, hA, hB, hs,
          releaseEvents, List.countP_append]

theorem ensure_WF (d : DeviceState) (s : Nat) (ok : Bool) (h : d.WF) :
    ((d.ensureUploadTransferBuffer s ok).2).WF := by
  obtain ⟨h1, h2⟩ := h
  by_cases hA : d.uploadTransferBuffer.1 ≠ 0 ∧ d.uploadTransferBuffer.2 ≥ s
  · simp [DeviceState.ensureUploadTransferBuffer, hA, DeviceState.WF]
    exact h1
  · by_cases hB : d.uploadTransferBuffer.1 = 0
    · cases ok <;>
        simp [DeviceState.ensureUploadTransferBuffer, hA, hB,
          DeviceState.WF] <;> omega
    · have hs : ¬ s ≤ d.uploadTransferBuffer.2 := fun hh => hA ⟨hB, hh⟩
      cases ok <;>
        simp [DeviceState.ensureUploadTransferBuffer, hA, hB, hs,
          DeviceState.WF] <;> omega

theorem ensure_cap_mono (d : DeviceState) (s : Nat) (h : d.WF) :
    d.uploadTransferBuffer.2 ≤
      ((d.ensureUploadTransferBuffer s true).2).uploadTransferBuffer.2 := by
  obtain ⟨h1, h2⟩ := h
  by_cases hA : d.uploadTransferBuffer.1 ≠ 0 ∧ d.uploadTransferBuffer.2 ≥ s
  · simp [DeviceState.ensureUploadTransferBuffer, hA]
  · by_cases hB : d.uploadTransferBuffer.1 = 0
    · simp [DeviceState.ensureUploadTransferBuffer, hA, hB, h2 hB]
    · have hs : ¬ s ≤ d.uploadTransferBuffer.2 := fun hh => hA ⟨hB, hh⟩
      simp [DeviceState.ensureUploadTransferBuffer, hA, hB, hs]
      omega

theorem uploadToBuffer_frame (d : DeviceState) (cp : Option Nat) (b : Int)
    (off : Nat) (data : List Nat) (o : UploadOracle) (r : Except String Unit)
    (d' : DeviceState)
    (h : d.uploadToBuffer cp b off data o = some (r, d')) :
    d'.cmdBufCount = d.cmdBufCount ∧
    d'.swapchain = d.swapchain ∧
    d'.buffers = d.buffers ∧
    d'.textures = d.textures ∧
    releaseEvents d'.trace = releaseEvents d.trace ∧
    (d'.pendingTransferBuffers = d.pendingTransferBuffers ∨
      d'.pendingTransferBuffers =
        d.pendingTransferBuffers ++ [d.uploadTransferBuffer.1]) ∧
    d.nextPtr ≤ d'.nextPtr ∧
    (d'.uploadTransferBuffer = d.uploadTransferBuffer ∨
      d'.uploadTransferBuffer =
        ((d.ensureUploadTransferBuffer (data.length % U32)
          o.createOk).2).uploadTransferBuffer) := by
  obtain ⟨f1, f2, f3, f4, f5, f6, f7⟩ :=
    ensure_frame d (data.length % U32) o.createOk
  unfold DeviceState.uploadToBuffer at h
  rcases hg : d.buffers.get b with _ | slot
  · rw [hg] at h; cases h
  rw [hg] at h
  simp only at h
  split at h
  · simp only [Option.some.injEq, Prod.mk.injEq] at h
    obtain ⟨hr, hd⟩ := h
    subst hd
    simp
  · rcases he : d.ensureUploadTransferBuffer (data.length % U32) o.createOk
      with ⟨re, d1⟩
    rw [he] at h f1 f2 f3 f4 f5 f6 f7
    dsimp only at f1 f2 f3 f4 f5 f6 f7
    cases re with
    | error e =>
      simp only [Option.some.injEq, Prod.mk.injEq] at h
      obtain ⟨hr, hd⟩ := h
      subst hd
      exact ⟨f1, f2, f3, f4, f5, f6, f7, Or.inr rfl⟩
    | ok transfer =>
      cases cp with
      | some pass =>
        simp only [Option.some.injEq, Prod.mk.injEq] at h
        obtain ⟨hr, hd⟩ := h
        subst hd
        refine ⟨by simp [f1], by simp [f2], by simp [f3], by simp [f4], ?_,
          by simpa using f6, by simpa using f7, Or.inr (by simp)⟩
        simp only [emit_trace, alloc_trace, releaseEvents, List.countP_append,
          List.countP_cons, List.countP_nil] at f5 ⊢
        simp [f5]
      | none =>
        cases hao : o.acquireOk with
        | false =>
          rw [hao] at h
          simp only [Bool.false_eq_true, if_false, Option.some.injEq,
            Prod.mk.injEq] at h
          obtain ⟨hr, hd⟩ := h
          subst hd
          refine ⟨by simp [f1], by simp [f2], by simp [f3], by simp [f4], ?_,
            by simpa using f6, by simpa using f7, Or.inr (by simp)⟩
          simp only [emit_trace, alloc_trace, releaseEvents, List.countP_append,
            List.countP_cons, List.countP_nil] at f5 ⊢
          simp [f5]
        | true =>
          rw [hao] at h
          simp only [if_true] at h
          cases hbo : o.beginOk with
          | false =>
            rw [hbo] at h
            simp only [Bool.false_eq_true, if_false, Option.some.injEq,
              Prod.mk.injEq] at h
            obtain ⟨hr, hd⟩ := h
            subst hd
            refine ⟨by simp [f1], by simp [f2], by simp [f3], by simp [f4], ?_,
              by simpa using f6, ?_, Or.inr (by simp)⟩
            · simp only [emit_trace, alloc_trace, releaseEvents, List.countP_append,
                List.countP_cons, List.countP_nil] at f5 ⊢
              simp [f5]
            · simp; omega
          | true =>
            rw [hbo] at h
            simp only [if_true] at h
            cases hso : o.submitOk with
            | false =>
              rw [hso] at h
              simp only [Bool.false_eq_true, if_false, Option.some.injEq,
                Prod.mk.injEq] at h
              obtain ⟨hr, hd⟩ := h
              subst hd
              refine ⟨by simp [f1], by simp [f2], by simp [f3], by simp [f4], ?_,
                by simpa using f6, ?_, Or.inr (by simp)⟩
              · simp only [emit_trace, alloc_trace, releaseEvents, List.countP_append,
                  List.countP_cons, List.countP_nil] at f5 ⊢
                simp [f5]
              · simp; omega
            | true =>
              rw [hso] at h
              simp only [if_true, Option.some.injEq, Prod.mk.injEq] at h
              obtain ⟨hr, hd⟩ := h
              subst hd
              refine ⟨by simp [f1], by simp [f2], by simp [f3], by simp [f4], ?_,
                by simpa using f6, ?_, Or.inr (by simp)⟩
              · simp only [emit_trace, alloc_trace, releaseEvents, List.countP_append,
                  List.countP_cons, List.countP_nil] at f5 ⊢
                simp [f5]
              · simp; omega

end Sdl3Gs

namespace Sdl3Gs

theorem uploadToTexture_frame (d : DeviceState) (cp : Option Nat)
    (region : TextureRegion) (data : List Nat) (o : UploadOracle)
    (r : Except String Unit) (d' : DeviceState)
    (h : d.uploadToTexture cp region data o = some (r, d')) :
    d'.cmdBufCount = d.cmdBufCount ∧
    d'.swapchain = d.swapchain ∧
    d'.buffers = d.buffers ∧
    d'.textures = d.textures ∧
    releaseEvents d'.trace = releaseEvents d.trace ∧
    (d'.pendingTransferBuffers = d.pendingTransferBuffers ∨
      d'.pendingTransferBuffers =
        d.pendingTransferBuffers ++ [d.uploadTransferBuffer.1]) ∧
    d.nextPtr ≤ d'.nextPtr ∧
    (d'.uploadTransferBuffer = d.uploadTransferBuffer ∨
      d'.uploadTransferBuffer =
        ((d.ensureUploadTransferBuffer (data.length % U32)
          o.createOk).2).uploadTransferBuffer) := by
  obtain ⟨f1, f2, f3, f4, f5, f6, f7⟩ :=
    ensure_frame d (data.length % U32) o.createOk
  unfold DeviceState.uploadToTexture at h
  simp only at h
  rcases he : d.ensureUploadTransferBuffer (data.length % U32) o.createOk
    with ⟨re, d1⟩
  rw [he] at h f1 f2 f3 f4 f5 f6 f7
  dsimp only at f1 f2 f3 f4 f5 f6 f7
  cases re with
  | error e =>
    simp only [Option.some.injEq, Prod.mk.injEq] at h
    obtain ⟨hr, hd⟩ := h
    subst hd
    exact ⟨f1, f2, f3, f4, f5, f6, f7, Or.inr rfl⟩
  | ok transfer =>
    simp only at h
    rcases htx : (emit (NativeCall.unmapTransferBuffer transfer)
        (emit (NativeCall.mapTransferBuffer transfer) d1)).textureRaw
        region.texture with _ | dst
    · rw [htx] at h; cases h
    rw [htx] at h
    cases cp with
    | some pass =>
      simp only [Option.some.injEq, Prod.mk.injEq] at h
      obtain ⟨hr, hd⟩ := h
      subst hd
      refine ⟨by simp [f1], by simp [f2], by simp [f3], by simp [f4], ?_,
        by simpa using f6, by simpa using f7, Or.inr (by simp)⟩
      simp only [emit_trace, alloc_trace, releaseEvents, List.countP_append,
        List.countP_cons, List.countP_nil] at f5 ⊢
      simp [f5]
    | none =>
      cases hao : o.acquireOk with
      | false =>
        rw [hao] at h
        simp only [Bool.false_eq_true, if_false, Option.some.injEq,
          Prod.mk.injEq] at h
        obtain ⟨hr, hd⟩ := h
        subst hd
        refine ⟨by simp [f1], by simp [f2], by simp [f3], by simp [f4], ?_,
          by simpa using f6, by simpa using f7, Or.inr (by simp)⟩
        simp only [emit_trace, alloc_trace, releaseEvents, List.countP_append,
          List.countP_cons, List.countP_nil] at f5 ⊢
        simp [f5]
      | true =>
        rw [hao] at h
        simp only [if_true] at h
        cases hbo : o.beginOk with
        | false =>
          rw [hbo] at h
          simp only [Bool.false_eq_true, if_false, Option.some.injEq,
            Prod.mk.injEq] at h
          obtain ⟨hr, hd⟩ := h
          subst hd
          refine ⟨by simp [f1], by simp [f2], by simp [f3], by simp [f4], ?_,
            by simpa using f6, ?_, Or.inr (by simp)⟩
          · simp only [emit_trace, alloc_trace, releaseEvents, List.countP_append,
              List.countP_cons, List.countP_nil] at f5 ⊢
            simp [f5]
          · simp; omega
        | true =>
          rw [hbo] at h
          simp only [if_true] at h
          cases hso : o.submitOk with
          | false =>
            rw [hso] at h
            simp only [Bool.false_eq_true, if_false, Option.some.injEq,
              Prod.mk.injEq] at h
            obtain ⟨hr, hd⟩ := h
            subst hd
            refine ⟨by simp [f1], by simp [f2], by simp [f3], by simp [f4], ?_,
              by simpa using f6, ?_, Or.inr (by simp)⟩
            · simp only [emit_trace, alloc_trace, releaseEvents, List.countP_append,
                List.countP_cons, List.countP_nil] at f5 ⊢
              simp [f5]
            · simp; omega
          | true =>
            rw [hso] at h
            simp only [if_true, Option.some.injEq, Prod.mk.injEq] at h
            obtain ⟨hr, hd⟩ := h
            subst hd
            refine ⟨by simp [f1], by simp [f2], by simp [f3], by simp [f4], ?_,
              by simpa using f6, ?_, Or.inr (by simp)⟩
            · simp only [emit_trace, alloc_trace, releaseEvents, List.countP_append,
                List.countP_cons, List.countP_nil] at f5 ⊢
              simp [f5]
            · simp; omega

end Sdl3Gs

namespace Sdl3Gs

theorem downloadFromBuffer_frame (d : DeviceState) (b : Int)
    (off sz : Nat) (o : DownloadOracle) (r : Except String (List Nat))
    (d' : DeviceState)
    (h : d.downloadFromBuffer b off sz o = some (r, d')) :
    d'.cmdBufCount = d.cmdBufCount ∧
    d'.swapchain = d.swapchain ∧
    d'.buffers = d.buffers ∧
    d'.textures = d.textures ∧
    d'.pendingTransferBuffers = d.pendingTransferBuffers ∧
    d'.uploadTransferBuffer = d.uploadTransferBuffer ∧
    d.nextPtr ≤ d'.nextPtr := by
  unfold DeviceState.downloadFromBuffer at h
  rcases hg : d.buffers.get b with _ | slot
  · rw [hg] at h; cases h
  rw [hg] at h
  simp only at h
  by_cases hu : sz = 0 ∧ slot.size < off
  · rw [if_pos hu] at h; cases h
  rw [if_neg hu] at h
  by_cases hrange :
      satAdd32 off (if sz = 0 then slot.size - off else sz) > slot.size
  · rw [if_pos hrange] at h
    simp only [Option.some.injEq, Prod.mk.injEq] at h
    obtain ⟨hr, hd⟩ := h
    subst hd
    exact ⟨rfl, rfl, rfl, rfl, rfl, rfl, le_refl _⟩
  rw [if_neg hrange] at h
  cases hco : o.createOk with
  | false =>
    rw [hco] at h
    simp only [Bool.false_eq_true, if_false, Option.some.injEq, Prod.mk.injEq] at h
    obtain ⟨hr, hd⟩ := h
    subst hd
    refine ⟨by simp, by simp, by simp, by simp, by simp, by simp, by simp <;> omega⟩
  | true =>
    rw [hco] at h
    simp only [if_true] at h
    cases hao : o.acquireOk with
    | false =>
      rw [hao] at h
      simp only [Bool.false_eq_true, if_false, Option.some.injEq, Prod.mk.injEq] at h
      obtain ⟨hr, hd⟩ := h
      subst hd
      refine ⟨by simp, by simp, by simp, by simp, by simp, by simp, by simp <;> omega⟩
    | true =>
      rw [hao] at h
      simp only [if_true] at h
      cases hbo : o.beginOk with
      | false =>
        rw [hbo] at h
        simp only [Bool.false_eq_true, if_false, Option.some.injEq, Prod.mk.injEq] at h
        obtain ⟨hr, hd⟩ := h
        subst hd
        refine ⟨by simp, by simp, by simp, by simp, by simp, by simp, by simp <;> omega⟩
      | true =>
        rw [hbo] at h
        simp only [if_true] at h
        cases hso : o.submitOk with
        | false =>
          rw [hso] at h
          simp only [Bool.false_eq_true, if_false, Option.some.injEq, Prod.mk.injEq] at h
          obtain ⟨hr, hd⟩ := h
          subst hd
          refine ⟨by simp, by simp, by simp, by simp, by simp, by simp, by simp <;> omega⟩
        | true =>
          rw [hso] at h
          simp only [if_true] at h
          cases hwo : o.waitOk with
          | false =>
            rw [hwo] at h
            simp only [Bool.false_eq_true, if_false, Option.some.injEq, Prod.mk.injEq] at h
            obtain ⟨hr, hd⟩ := h
            subst hd
            refine ⟨by simp, by simp, by simp, by simp, by simp, by simp, by simp <;> omega⟩
          | true =>
            rw [hwo] at h
            simp only [if_true] at h
            cases hmo : o.mapOk with
            | false =>
              rw [hmo] at h
              simp only [Bool.false_eq_true, if_false, Option.some.injEq, Prod.mk.injEq] at h
              obtain ⟨hr, hd⟩ := h
              subst hd
              refine ⟨by simp, by simp, by simp, by simp, by simp, by simp, by simp <;> omega⟩
            | true =>
              rw [hmo] at h
              simp only [if_true] at h
              simp only [if_true, Option.some.injEq, Prod.mk.injEq] at h
              obtain ⟨hr, hd⟩ := h
              subst hd
              refine ⟨by simp, by simp, by simp, by simp, by simp, by simp, by simp <;> omega⟩

end Sdl3Gs

namespace Sdl3Gs

/-- Full characterisation of `on_command_buffer_done`: the counter is
decremented (u32 wrap), the pending list is drained exactly when the previous
counter value was 1 (emitting one native release per entry), and nothing else
changes. -/
theorem onDone_spec (d : DeviceState) :
    (d.onCommandBufferDone).cmdBufCount = (d.cmdBufCount + (U32 - 1)) % U32 ∧
    (d.onCommandBufferDone).pendingTransferBuffers =
      (if d.cmdBufCount = 1 then [] else d.pendingTransferBuffers) ∧
    (d.onCommandBufferDone).trace =
      (if d.cmdBufCount = 1 then
        d.trace ++ d.pendingTransferBuffers.map NativeCall.releaseTransferBuffer
      else d.trace) ∧
    (d.onCommandBufferDone).uploadTransferBuffer = d.uploadTransferBuffer ∧
    (d.onCommandBufferDone).swapchain = d.swapchain ∧
    (d.onCommandBufferDone).buffers = d.buffers ∧
    (d.onCommandBufferDone).textures = d.textures ∧
    (d.onCommandBufferDone).nextPtr = d.nextPtr := by
  by_cases hc : d.cmdBufCount = 1 <;>
    simp [DeviceState.onCommandBufferDone, hc, foldl_emit_release]

theorem dropRun_unsubmitted_spec (d : DeviceState) (p : Nat) :
    (CmdBuf.dropRun ⟨p, false⟩ d).cmdBufCount =
      (d.cmdBufCount + (U32 - 1)) % U32 ∧
    (CmdBuf.dropRun ⟨p, false⟩ d).swapchain = (0, 0, 0) ∧
    (CmdBuf.dropRun ⟨p, false⟩ d).pendingTransferBuffers =
      (if d.cmdBufCount = 1 then [] else d.pendingTransferBuffers) ∧
    (CmdBuf.dropRun ⟨p, false⟩ d).trace =
      (if d.cmdBufCount = 1 then
        d.trace ++ [NativeCall.cancelGPUCommandBuffer p] ++
          d.pendingTransferBuffers.map NativeCall.releaseTransferBuffer
      else d.trace ++ [NativeCall.cancelGPUCommandBuffer p]) ∧
    (CmdBuf.dropRun ⟨p, false⟩ d).uploadTransferBuffer =
      d.uploadTransferBuffer ∧
    (CmdBuf.dropRun ⟨p, false⟩ d).buffers = d.buffers ∧
    (CmdBuf.dropRun ⟨p, false⟩ d).textures = d.textures ∧
    (CmdBuf.dropRun ⟨p, false⟩ d).nextPtr = d.nextPtr := by
  by_cases hc : d.cmdBufCount = 1 <;>
    simp [CmdBuf.dropRun, DeviceState.onCommandBufferDone, hc,
      foldl_emit_release]

theorem dropRun_submitted_spec (d : DeviceState) (p : Nat) :
    CmdBuf.dropRun ⟨p, true⟩ d = { d with swapchain := (0, 0, 0) } := rfl

theorem submit_spec (d : DeviceState) (p : Nat) (ok : Bool) :
    (CmdBuf.submit ⟨p, false⟩ d ok).2 =
      { d.onCommandBufferDone with
          swapchain := (0, 0, 0),
          trace := (d.onCommandBufferDone).trace ++
            [NativeCall.submitGPUCommandBuffer p] } ∧
    ((CmdBuf.submit ⟨p, false⟩ d ok).1 = Except.ok () ↔ ok = true) := by
  cases ok <;>
    simp [CmdBuf.submit, CmdBuf.dropRun, emit]

theorem acquire_spec (d : DeviceState) (ok : Bool) :
    (d.acquireCommandBuffer ok).2 =
      (if ok then
        { d with
            nextPtr := d.nextPtr + 1,
            trace := d.trace ++ [NativeCall.acquireGPUCommandBuffer d.nextPtr],
            cmdBufCount := (d.cmdBufCount + 1) % U32 }
      else d) ∧
    ((d.acquireCommandBuffer ok).1 =
      if ok then Except.ok ⟨d.nextPtr, false⟩
      else Except.error "SDL_AcquireGPUCommandBuffer failed") := by
  cases ok <;> simp [DeviceState.acquireCommandBuffer, emit, alloc]

end Sdl3Gs

namespace Sdl3Gs

theorem createBuffer_frame (d : DeviceState) (sz : Nat) (ok : Bool)
    (r : Except String Int) (d' : DeviceState)
    (h : d.createBuffer sz ok = some (r, d')) :
    d'.uploadTransferBuffer = d.uploadTransferBuffer ∧
    d'.cmdBufCount = d.cmdBufCount ∧
    d'.pendingTransferBuffers = d.pendingTransferBuffers ∧
    d'.swapchain = d.swapchain ∧
    d.nextPtr ≤ d'.nextPtr := by
  unfold DeviceState.createBuffer at h
  simp only [emit, alloc] at h
  cases hok : ok with
  | false =>
    rw [hok] at h
    simp only [Bool.false_eq_true, if_false, Option.some.injEq,
      Prod.mk.injEq] at h
    obtain ⟨hr, hd⟩ := h
    subst hd
    simp
  | true =>
    rw [hok] at h
    simp only [if_true] at h
    rcases hi : SlotMap.insert
        (d.buffers) (⟨d.nextPtr, sz⟩ : BufferSlot) with _ | p
    · rw [hi] at h; cases h
    · rw [hi] at h
      simp only [Option.some.injEq, Prod.mk.injEq] at h
      obtain ⟨hr, hd⟩ := h
      subst hd
      simp

theorem destroyBuffer_frame (d : DeviceState) (hdl : Int) (d' : DeviceState)
    (h : d.destroyBuffer hdl = some d') :
    d'.uploadTransferBuffer = d.uploadTransferBuffer ∧
    d'.cmdBufCount = d.cmdBufCount ∧
    d'.pendingTransferBuffers = d.pendingTransferBuffers ∧
    d'.swapchain = d.swapchain ∧
    d.nextPtr ≤ d'.nextPtr := by
  unfold DeviceState.destroyBuffer at h
  rcases hi : d.buffers.remove hdl with _ | p
  · rw [hi] at h; cases h
  · rw [hi] at h
    simp only [Option.some.injEq] at h
    subst h
    simp

theorem createTexture_frame (d : DeviceState) (w hgt : Nat) (ok : Bool)
    (r : Except String Int) (d' : DeviceState)
    (h : d.createTexture w hgt ok = some (r, d')) :
    d'.uploadTransferBuffer = d.uploadTransferBuffer ∧
    d'.cmdBufCount = d.cmdBufCount ∧
    d'.pendingTransferBuffers = d.pendingTransferBuffers ∧
    d'.swapchain = d.swapchain ∧
    d.nextPtr ≤ d'.nextPtr := by
  unfold DeviceState.createTexture at h
  simp only [emit, alloc] at h
  cases hok : ok with
  | false =>
    rw [hok] at h
    simp only [Bool.false_eq_true, if_false, Option.some.injEq,
      Prod.mk.injEq] at h
    obtain ⟨hr, hd⟩ := h
    subst hd
    simp
  | true =>
    rw [hok] at h
    simp only [if_true] at h
    rcases hi : SlotMap.insert
        (d.textures) (⟨d.nextPtr, (w, hgt)⟩ : TextureSlot) with _ | p
    · rw [hi] at h; cases h
    · rw [hi] at h
      simp only [Option.some.injEq, Prod.mk.injEq] at h
      obtain ⟨hr, hd⟩ := h
      subst hd
      simp

theorem destroyTexture_frame (d : DeviceState) (hdl : Int) (d' : DeviceState)
    (h : d.destroyTexture hdl = some d') :
    d'.uploadTransferBuffer = d.uploadTransferBuffer ∧
    d'.cmdBufCount = d.cmdBufCount ∧
    d'.pendingTransferBuffers = d.pendingTransferBuffers ∧
    d'.swapchain = d.swapchain ∧
    d.nextPtr ≤ d'.nextPtr := by
  unfold DeviceState.destroyTexture at h
  rcases hi : d.textures.remove hdl with _ | p
  · rw [hi] at h; cases h
  · rw [hi] at h
    simp only [Option.some.injEq] at h
    subst h
    simp

theorem acquireSwapchain_frame (d : DeviceState) (ok : Bool) (t w hgt : Nat) :
    (d.acquireSwapchainTexture ok t w hgt).2.uploadTransferBuffer =
      d.uploadTransferBuffer ∧
    (d.acquireSwapchainTexture ok t w hgt).2.cmdBufCount = d.cmdBufCount ∧
    (d.acquireSwapchainTexture ok t w hgt).2.pendingTransferBuffers =
      d.pendingTransferBuffers ∧
    (d.acquireSwapchainTexture ok t w hgt).2.nextPtr = d.nextPtr := by
  cases ok <;> by_cases ht : t = 0 <;>
    simp [DeviceState.acquireSwapchainTexture, ht]

end Sdl3Gs

namespace Sdl3Gs

/-- Constructor-shaped introduction rule for `DeviceState.WF`. -/
theorem WF_mk (d : DeviceState) (h1 : 0 < d.nextPtr)
    (h2 : d.uploadTransferBuffer.1 = 0 → d.uploadTransferBuffer.2 = 0) :
    d.WF :=
  ⟨h1, h2⟩

/-- Destructor for `DeviceState.WF`. -/
theorem WF_elim (d : DeviceState) (h : d.WF) :
    0 < d.nextPtr ∧
      (d.uploadTransferBuffer.1 = 0 → d.uploadTransferBuffer.2 = 0) :=
  h

end Sdl3Gs

namespace Sdl3Gs

/-- Every device operation preserves well-formedness, and — provided its
staging-buffer creations succeed — never lowers the tracked staging
capacity. -/
theorem step_WF_cap (op : DevOp) (d d' : DeviceState)
    (h : op.step d = some d') (hWF : d.WF) :
    d'.WF ∧ (op.createsSucceed →
      d.uploadTransferBuffer.2 ≤ d'.uploadTransferBuffer.2) := by
  obtain ⟨hp, hinv⟩ := WF_elim d hWF
  cases op with
  | opUploadToBuffer cp b off data o =>
    simp only [DevOp.step, Option.map_eq_some'] at h
    obtain ⟨⟨r0, d0⟩, hu, hmap⟩ := h
    simp only at hmap
    subst hmap
    obtain ⟨f1, f2, f3, f4, f5, f6, f7, f8⟩ :=
      uploadToBuffer_frame d cp b off data o r0 d0 hu
    constructor
    · refine WF_mk d0 (lt_of_lt_of_le hp f7) ?_
      rcases f8 with f8 | f8
      · rw [f8]; exact hinv
      · rw [f8]
        exact (WF_elim _ (ensure_WF d (data.length % U32) o.createOk hWF)).2
    · intro hc
      rcases f8 with f8 | f8
      · rw [f8]
      · rw [f8]
        have hc' : o.createOk = true := hc
        rw [hc']
        exact ensure_cap_mono d (data.length % U32) hWF
  | opUploadToTexture cp region data o =>
    simp only [DevOp.step, Option.map_eq_some'] at h
    obtain ⟨⟨r0, d0⟩, hu, hmap⟩ := h
    simp only at hmap
    subst hmap
    obtain ⟨f1, f2, f3, f4, f5, f6, f7, f8⟩ :=
      uploadToTexture_frame d cp region data o r0 d0 hu
    constructor
    · refine WF_mk d0 (lt_of_lt_of_le hp f7) ?_
      rcases f8 with f8 | f8
      · rw [f8]; exact hinv
      · rw [f8]
        exact (WF_elim _ (ensure_WF d (data.length % U32) o.createOk hWF)).2
    · intro hc
      rcases f8 with f8 | f8
      · rw [f8]
      · rw [f8]
        have hc' : o.createOk = true := hc
        rw [hc']
        exact ensure_cap_mono d (data.length % U32) hWF
  | opDownloadFromBuffer b off sz o =>
    simp only [DevOp.step, Option.map_eq_some'] at h
    obtain ⟨⟨r0, d0⟩, hu, hmap⟩ := h
    simp only at hmap
    subst hmap
    obtain ⟨f1, f2, f3, f4, f5, f6, f7⟩ :=
      downloadFromBuffer_frame d b off sz o r0 d0 hu
    exact ⟨WF_mk d0 (lt_of_lt_of_le hp f7) (f6 ▸ hinv),
      fun _ => le_of_eq (f6 ▸ rfl)⟩
  | opCreateBuffer sz ok =>
    simp only [DevOp.step, Option.map_eq_some'] at h
    obtain ⟨⟨r0, d0⟩, hu, hmap⟩ := h
    simp only at hmap
    subst hmap
    obtain ⟨f1, f2, f3, f4, f5⟩ := createBuffer_frame d sz ok r0 d0 hu
    exact ⟨WF_mk d0 (lt_of_lt_of_le hp f5) (f1 ▸ hinv),
      fun _ => le_of_eq (f1 ▸ rfl)⟩
  | opDestroyBuffer hdl =>
    simp only [DevOp.step] at h
    obtain ⟨f1, f2, f3, f4, f5⟩ := destroyBuffer_frame d hdl d' h
    exact ⟨WF_mk d' (lt_of_lt_of_le hp f5) (f1 ▸ hinv),
      fun _ => le_of_eq (f1 ▸ rfl)⟩
  | opCreateTexture w hgt ok =>
    simp only [DevOp.step, Option.map_eq_some'] at h
    obtain ⟨⟨r0, d0⟩, hu, hmap⟩ := h
    simp only at hmap
    subst hmap
    obtain ⟨f1, f2, f3, f4, f5⟩ := createTexture_frame d w hgt ok r0 d0 hu
    exact ⟨WF_mk d0 (lt_of_lt_of_le hp f5) (f1 ▸ hinv),
      fun _ => le_of_eq (f1 ▸ rfl)⟩
  | opDestroyTexture hdl =>
    simp only [DevOp.step] at h
    obtain ⟨f1, f2, f3, f4, f5⟩ := destroyTexture_frame d hdl d' h
    exact ⟨WF_mk d' (lt_of_lt_of_le hp f5) (f1 ▸ hinv),
      fun _ => le_of_eq (f1 ▸ rfl)⟩
  | opAcquire ok =>
    simp only [DevOp.step, Option.some.injEq] at h
    subst h
    cases ok
    · rw [(acquire_spec d false).1]
      simp only [Bool.false_eq_true, if_false]
      exact ⟨hWF, fun _ => le_refl _⟩
    · rw [(acquire_spec d true).1]
      simp only [if_true]
      exact ⟨WF_mk _ (by simp) (by simpa using hinv), fun _ => le_of_eq rfl⟩
  | opSubmit p ok =>
    simp only [DevOp.step, Option.some.injEq] at h
    subst h
    obtain ⟨hs, _⟩ := submit_spec d p ok
    rw [hs]
    obtain ⟨g1, g2, g3, g4, g5, g6, g7, g8⟩ := onDone_spec d
    exact ⟨WF_mk _ (by simpa [g8] using hp) (by simpa [g4] using hinv),
      fun _ => le_of_eq (by simp [g4])⟩
  | opDrop p sub =>
    simp only [DevOp.step, Option.some.injEq] at h
    subst h
    cases sub with
    | false =>
      obtain ⟨g1, g2, g3, g4, g5, g6, g7, g8⟩ := dropRun_unsubmitted_spec d p
      exact ⟨WF_mk _ (by simpa [g8] using hp) (by simpa [g5] using hinv),
        fun _ => le_of_eq (by simp [g5])⟩
    | true =>
      rw [dropRun_submitted_spec]
      exact ⟨WF_mk _ (by simpa using hp) (by simpa using hinv),
        fun _ => le_refl _⟩
  | opAcquireSwapchain ok t w hgt =>
    simp only [DevOp.step, Option.some.injEq] at h
    subst h
    obtain ⟨g1, g2, g3, g4⟩ := acquireSwapchain_frame d ok t w hgt
    exact ⟨WF_mk _ (by simpa [g4] using hp) (by simpa [g1] using hinv),
      fun _ => le_of_eq (by simp [g1])⟩

/-- Along any run of device operations whose staging creations succeed, the
tracked staging capacity never decreases, and well-formedness is kept. -/
theorem run_WF_cap (ops : List DevOp) (d d' : DeviceState)
    (h : run ops d = some d') (hWF : d.WF)
    (hc : ∀ op ∈ ops, op.createsSucceed) :
    d'.WF ∧ d.uploadTransferBuffer.2 ≤ d'.uploadTransferBuffer.2 := by
  induction ops generalizing d with
  | nil =>
    cases h
    exact ⟨hWF, le_refl _⟩
  | cons op rest ih =>
    unfold run at h
    rcases hs : op.step d with _ | d1
    · rw [hs] at h; cases h
    · rw [hs] at h
      simp only [Option.some_bind] at h
      obtain ⟨hWF1, hcap1⟩ := step_WF_cap op d d1 hs hWF
      obtain ⟨hWF2, hcap2⟩ := ih d1 h hWF1 (fun o ho => hc o (List.mem_cons_of_mem _ ho))
      exact ⟨hWF2, le_trans (hcap1 (hc op (List.mem_cons_self _ _))) hcap2⟩

end Sdl3Gs

namespace Sdl3Gs

/-! ## Claims about the device -/

/-- C1: the pending-release list is drained exactly when the in-flight
counter transitions to zero, and at no other time.  Finishing a command
buffer (submit or cancel-on-drop) empties the list iff the counter stood at
1, releasing each entry; with the counter above 1 it is left unchanged;
acquiring, dropping an already-submitted buffer, and growing the staging
buffer never remove entries.  Concretely: with two command buffers acquired
and the staging buffer grown, the first submit leaves the pending list
non-empty (counter 1) and the second drains it (counter 0). -/
theorem claim_C1_drain_exactly_at_zero :
    (∀ (d : DeviceState) (p : Nat) (ok : Bool),
      (CmdBuf.submit ⟨p, false⟩ d ok).2.pendingTransferBuffers =
        (if d.cmdBufCount = 1 then [] else d.pendingTransferBuffers)) ∧
    (∀ (d : DeviceState) (p : Nat),
      (CmdBuf.dropRun ⟨p, false⟩ d).pendingTransferBuffers =
        (if d.cmdBufCount = 1 then [] else d.pendingTransferBuffers)) ∧
    (∀ d : DeviceState, d.cmdBufCount = 1 →
      (d.onCommandBufferDone).trace = d.trace ++
        d.pendingTransferBuffers.map NativeCall.releaseTransferBuffer) ∧
    (∀ (d : DeviceState) (ok : Bool),
      (d.acquireCommandBuffer ok).2.pendingTransferBuffers =
        d.pendingTransferBuffers) ∧
    (∀ (d : DeviceState) (p : Nat),
      (CmdBuf.dropRun ⟨p, true⟩ d).pendingTransferBuffers =
        d.pendingTransferBuffers) ∧
    (∀ (d : DeviceState) (s : Nat) (ok : Bool), ∃ ext,
      (d.ensureUploadTransferBuffer s ok).2.pendingTransferBuffers =
        d.pendingTransferBuffers ++ ext) ∧
    (c1Dev2.cmdBufCount = 2 ∧ c1Dev3.pendingTransferBuffers = [3] ∧
      c1Dev4.cmdBufCount = 1 ∧ c1Dev4.pendingTransferBuffers = [3] ∧
      c1Dev5.cmdBufCount = 0 ∧ c1Dev5.pendingTransferBuffers = []) := by
  refine ⟨?_, ?_, ?_, ?_, ?_, ?_, ?_⟩
  · intro d p ok
    rw [(submit_spec d p ok).1]
    exact (onDone_spec d).2.1
  · intro d p
    exact (dropRun_unsubmitted_spec d p).2.2.1
  · intro d hc
    rw [(onDone_spec d).2.2.1, if_pos hc]
  · intro d ok
    cases ok <;> rw [(acquire_spec d _).1] <;> simp
  · intro d p
    rw [dropRun_submitted_spec]
  · intro d s ok
    rcases (ensure_frame d s ok).2.2.2.2.2.1 with hp | hp
    · exact ⟨[], by simpa using hp⟩
    · exact ⟨[d.uploadTransferBuffer.1], hp⟩
  · exact ⟨by decide, by decide, by decide, by decide, by decide, by decide⟩

/-- Witness for C1 at a concrete state with counter 2 (no drain) and counter
1 (drain), instantiating the hypothesised conjunct. -/
theorem claim_C1_drain_exactly_at_zero_witness :
    (c1Dev2.onCommandBufferDone).trace = c1Dev2.trace ++
      c1Dev2.pendingTransferBuffers.map NativeCall.releaseTransferBuffer ∨
    (c1Dev4.onCommandBufferDone).trace = c1Dev4.trace ++
      c1Dev4.pendingTransferBuffers.map NativeCall.releaseTransferBuffer :=
  Or.inr (claim_C1_drain_exactly_at_zero.2.2.1 c1Dev4 (by decide))

end Sdl3Gs

namespace Sdl3Gs

/-- C4: `submit` marks the buffer submitted and runs the in-flight
bookkeeping (decrement, and drain when the counter reaches zero) *before*
the native submit call — in the trace, the submit record comes after
everything `on_command_buffer_done` emitted; the swapchain cell is cleared
by the time `submit` returns; the native failure is surfaced as the error
while the final device state is identical to the success case (no extra
cancel or decrement from the drop path). -/
theorem claim_C4_submit_accounting_before_native :
    (∀ (d : DeviceState) (p : Nat) (ok : Bool),
      (CmdBuf.submit ⟨p, false⟩ d ok).2.cmdBufCount =
        (d.cmdBufCount + (U32 - 1)) % U32 ∧
      (CmdBuf.submit ⟨p, false⟩ d ok).2.swapchain = (0, 0, 0) ∧
      ((CmdBuf.submit ⟨p, false⟩ d ok).1 = Except.ok () ↔ ok = true) ∧
      ((CmdBuf.submit ⟨p, false⟩ d ok).1 =
          Except.error "SDL_SubmitGPUCommandBuffer failed" ↔ ok = false) ∧
      (CmdBuf.submit ⟨p, false⟩ d ok).2.trace =
        (d.onCommandBufferDone).trace ++
          [NativeCall.submitGPUCommandBuffer p] ∧
      (CmdBuf.submit ⟨p, false⟩ d ok).2.pendingTransferBuffers =
        (d.onCommandBufferDone).pendingTransferBuffers) ∧
    (∀ (d : DeviceState) (p : Nat),
      (CmdBuf.submit ⟨p, false⟩ d true).2 =
        (CmdBuf.submit ⟨p, false⟩ d false).2) ∧
    (∀ (d : DeviceState) (p : Nat) (ok : Bool),
      0 < d.cmdBufCount → d.cmdBufCount < U32 →
      (CmdBuf.submit ⟨p, false⟩ d ok).2.cmdBufCount = d.cmdBufCount - 1) := by
  have key : ∀ (d : DeviceState) (p : Nat) (ok : Bool),
      (CmdBuf.submit ⟨p, false⟩ d ok).2.cmdBufCount =
        (d.cmdBufCount + (U32 - 1)) % U32 := by
    intro d p ok
    rw [(submit_spec d p ok).1]
    exact (onDone_spec d).1
  refine ⟨?_, ?_, ?_⟩
  · intro d p ok
    refine ⟨key d p ok, ?_, ?_, ?_, ?_, ?_⟩
    · rw [(submit_spec d p ok).1]
    · exact (submit_spec d p ok).2
    · cases ok <;> simp [CmdBuf.submit]
    · rw [(submit_spec d p ok).1]
    · rw [(submit_spec d p ok).1]
  · intro d p
    rw [(submit_spec d p true).1, (submit_spec d p false).1]
  · intro d p ok h1 h2
    rw [key d p ok]
    unfold U32 at h2 ⊢
    omega

/-- Witness for C4's hypothesised decrement conjunct at a concrete state
with two command buffers in flight. -/
theorem claim_C4_submit_accounting_before_native_witness :
    (CmdBuf.submit ⟨4, false⟩ c1Dev3 true).2.cmdBufCount =
      c1Dev3.cmdBufCount - 1 :=
  claim_C4_submit_accounting_before_native.2.2 c1Dev3 4 true (by decide)
    (by decide)

/-- C8: dropping a command buffer that was never submitted issues exactly one
native cancel call and decrements the in-flight counter exactly once (and
drains the pending list when the counter thereby reaches zero); the
swapchain cell is cleared to empty unconditionally on drop, submitted or
not. -/
theorem claim_C8_cancel_on_drop :
    (∀ (d : DeviceState) (p : Nat),
      (CmdBuf.dropRun ⟨p, false⟩ d).cmdBufCount =
        (d.cmdBufCount + (U32 - 1)) % U32 ∧
      (CmdBuf.dropRun ⟨p, false⟩ d).trace =
        (if d.cmdBufCount = 1 then
          d.trace ++ [NativeCall.cancelGPUCommandBuffer p] ++
            d.pendingTransferBuffers.map NativeCall.releaseTransferBuffer
        else d.trace ++ [NativeCall.cancelGPUCommandBuffer p]) ∧
      (CmdBuf.dropRun ⟨p, false⟩ d).swapchain = (0, 0, 0)) ∧
    (∀ (d : DeviceState) (p : Nat) (s : Bool),
      (CmdBuf.dropRun ⟨p, s⟩ d).swapchain = (0, 0, 0)) ∧
    (∀ (d : DeviceState) (p : Nat),
      0 < d.cmdBufCount → d.cmdBufCount < U32 →
      (CmdBuf.dropRun ⟨p, false⟩ d).cmdBufCount = d.cmdBufCount - 1) := by
  refine ⟨?_, ?_, ?_⟩
  · intro d p
    obtain ⟨g1, g2, g3, g4, g5, g6, g7, g8⟩ := dropRun_unsubmitted_spec d p
    exact ⟨g1, g4, g2⟩
  · intro d p s
    cases s
    · exact (dropRun_unsubmitted_spec d p).2.1
    · rw [dropRun_submitted_spec]
  · intro d p h1 h2
    rw [(dropRun_unsubmitted_spec d p).1]
    unfold U32 at h2 ⊢
    omega

/-- Witness for C8's hypothesised decrement conjunct: dropping one of two
in-flight command buffers without submitting. -/
theorem claim_C8_cancel_on_drop_witness :
    (CmdBuf.dropRun ⟨5, false⟩ c1Dev3).cmdBufCount = c1Dev3.cmdBufCount - 1 :=
  claim_C8_cancel_on_drop.2.2 c1Dev3 5 (by decide) (by decide)

end Sdl3Gs

namespace Sdl3Gs

/-- A handle returned by `SlotMap.insert` is never negative: reuse returns
the (non-negative) free head, growth returns the old length. -/
theorem SlotMap.insert_nonneg {T : Type} (m : SlotMap T) (v : T) (i : Int)
    (m' : SlotMap T) (h : m.insert v = some (i, m')) : 0 ≤ i := by
  unfold SlotMap.insert at h
  split at h
  case isTrue hf =>
    rcases hg : m.slots.get? m.firstFree.toNat with _ | e
    · rw [hg] at h; cases h
    · rw [hg] at h
      cases e with
      | occupied w => cases h
      | free nf =>
        simp only [Option.some.injEq, Prod.mk.injEq] at h
        exact h.1 ▸ hf
  case isFalse hf =>
    simp only [Option.some.injEq, Prod.mk.injEq] at h
    exact h.1 ▸ Int.natCast_nonneg _

/-- C9: the current swapchain texture is identified by the strictly negative
sentinel handle `-7777`, which can never be a registry handle (insertion
only returns non-negative handles); resolving the sentinel — for the raw
pointer or the resolution — reads the per-device swapchain cell, not the
texture registry, and faults (modelled `none`) exactly when the stored
pointer is null, i.e. when no swapchain texture has been acquired. -/
theorem claim_C9_swapchain_sentinel :
    swapchainSentinel = -7777 ∧ swapchainSentinel < 0 ∧
    (∀ (T : Type) (m : SlotMap T) (v : T) (i : Int) (m' : SlotMap T),
      m.insert v = some (i, m') → i ≠ swapchainSentinel) ∧
    (∀ d : DeviceState, d.textureRaw swapchainSentinel =
      (if d.swapchain.1 = 0 then none else some d.swapchain.1)) ∧
    (∀ d : DeviceState, d.textureRes swapchainSentinel =
      (if d.swapchain.1 = 0 then none
       else some (d.swapchain.2.1, d.swapchain.2.2))) ∧
    (∀ d : DeviceState, d.swapchain.1 = 0 →
      d.textureRaw swapchainSentinel = none ∧
      d.textureRes swapchainSentinel = none) := by
  refine ⟨rfl, by decide, ?_, ?_, ?_, ?_⟩
  · intro T m v i m' h hi
    have := SlotMap.insert_nonneg m v i m' h
    rw [hi] at this
    exact absurd this (by decide)
  · intro d
    simp [DeviceState.textureRaw]
  · intro d
    simp [DeviceState.textureRes]
  · intro d h0
    simp [DeviceState.textureRaw, DeviceState.textureRes, h0]

/-- Witness for C9: inserting into a concrete registry yields a handle that
is not the sentinel, and the sentinel on a fresh device (no swapchain
acquired) faults. -/
theorem claim_C9_swapchain_sentinel_witness :
    ((0 : Int) ≠ swapchainSentinel) ∧
    (DeviceState.fresh.textureRaw swapchainSentinel = none ∧
      DeviceState.fresh.textureRes swapchainSentinel = none) :=
  ⟨claim_C9_swapchain_sentinel.2.2.1 Nat (SlotMap.empty Nat) 7 0
      ⟨[SlotEntry.occupied 7], -1⟩ (by decide),
    claim_C9_swapchain_sentinel.2.2.2.2.2 DeviceState.fresh (by decide)⟩

end Sdl3Gs

namespace Sdl3Gs

/-- C10: an upload issued without an open copy pass acquires and submits its
short-lived native command buffer directly, bypassing the in-flight
accounting: the counter is unchanged after the call — and at every step
during it, since the staging helper and the trace/pointer helpers it is
built from never touch the counter; no transfer-buffer release is performed
and the pending list is never drained (it is preserved or extended by the
superseded staging pointer, so everything pending beforehand is still
pending afterwards). -/
theorem claim_C10_internal_upload_bypasses_accounting :
    (∀ (d : DeviceState) (b : Int) (off : Nat) (data : List Nat)
        (o : UploadOracle) (r : Except String Unit) (d' : DeviceState),
      d.uploadToBuffer none b off data o = some (r, d') →
      d'.cmdBufCount = d.cmdBufCount ∧
      releaseEvents d'.trace = releaseEvents d.trace ∧
      (d'.pendingTransferBuffers = d.pendingTransferBuffers ∨
        d'.pendingTransferBuffers =
          d.pendingTransferBuffers ++ [d.uploadTransferBuffer.1]) ∧
      (∀ p ∈ d.pendingTransferBuffers, p ∈ d'.pendingTransferBuffers)) ∧
    (∀ (d : DeviceState) (region : TextureRegion) (data : List Nat)
        (o : UploadOracle) (r : Except String Unit) (d' : DeviceState),
      d.uploadToTexture none region data o = some (r, d') →
      d'.cmdBufCount = d.cmdBufCount ∧
      releaseEvents d'.trace = releaseEvents d.trace ∧
      (d'.pendingTransferBuffers = d.pendingTransferBuffers ∨
        d'.pendingTransferBuffers =
          d.pendingTransferBuffers ++ [d.uploadTransferBuffer.1]) ∧
      (∀ p ∈ d.pendingTransferBuffers, p ∈ d'.pendingTransferBuffers)) ∧
    (∀ (d : DeviceState) (s : Nat) (ok : Bool),
      (d.ensureUploadTransferBuffer s ok).2.cmdBufCount = d.cmdBufCount) ∧
    (∀ (c : NativeCall) (d : DeviceState),
      (emit c d).cmdBufCount = d.cmdBufCount) ∧
    (∀ d : DeviceState, (alloc d).2.cmdBufCount = d.cmdBufCount) := by
  refine ⟨?_, ?_, ?_, ?_, ?_⟩
  · intro d b off data o r d' h
    obtain ⟨f1, f2, f3, f4, f5, f6, f7, f8⟩ :=
      uploadToBuffer_frame d none b off data o r d' h
    refine ⟨f1, f5, f6, ?_⟩
    intro p hp
    rcases f6 with f6 | f6 <;> rw [f6]
    · exact hp
    · exact List.mem_append_left _ hp
  · intro d region data o r d' h
    obtain ⟨f1, f2, f3, f4, f5, f6, f7, f8⟩ :=
      uploadToTexture_frame d none region data o r d' h
    refine ⟨f1, f5, f6, ?_⟩
    intro p hp
    rcases f6 with f6 | f6 <;> rw [f6]
    · exact hp
    · exact List.mem_append_left _ hp
  · intro d s ok
    exact (ensure_frame d s ok).1
  · intro c d
    rfl
  · intro d
    rfl

/-- Witness for C10: a concrete internal upload on a device with one command
buffer in flight and a pending staging pointer leaves the counter and the
pending entry intact. -/
theorem claim_C10_internal_upload_bypasses_accounting_witness :
    c10Dev1.cmdBufCount = c10Dev0.cmdBufCount ∧
      ∀ p ∈ c10Dev0.pendingTransferBuffers,
        p ∈ c10Dev1.pendingTransferBuffers :=
  let h := claim_C10_internal_upload_bypasses_accounting.1 c10Dev0 0 0
    [5, 5, 5, 5] okOracle (Except.ok ()) c10Dev1 (by rfl)
  ⟨h.1, h.2.2.2⟩

end Sdl3Gs

namespace Sdl3Gs

/-- C2 (amended): `ensure_upload_transfer_buffer` reuses the current staging
buffer iff one exists (non-null pointer) and its tracked capacity covers the
request; otherwise it pushes the old pointer (when one exists) onto the
pending-release list and creates a buffer of exactly the requested size.
The tracked capacity never decreases along any run of device operations
*whose native staging-buffer creations succeed* (a failed creation resets
the tracked pair to `(null, 0)` — see the counterexample); a fresh device is
well-formed, so this covers every real device.  Concretely, uploads of 16,
then 4, then 64 bytes cause exactly one growth event: the 4-byte upload
reuses the 16-byte buffer, and the 64-byte upload pushes it and creates the
second staging buffer. -/
theorem claim_C2_staging_growth_amended :
    (∀ (d : DeviceState) (s : Nat) (ok : Bool),
      d.uploadTransferBuffer.1 ≠ 0 → d.uploadTransferBuffer.2 ≥ s →
      d.ensureUploadTransferBuffer s ok =
        (Except.ok d.uploadTransferBuffer.1, d)) ∧
    (∀ (d : DeviceState) (s : Nat),
      ¬ (d.uploadTransferBuffer.1 ≠ 0 ∧ d.uploadTransferBuffer.2 ≥ s) →
      (d.ensureUploadTransferBuffer s true).2.uploadTransferBuffer.2 = s ∧
      (d.ensureUploadTransferBuffer s true).2.pendingTransferBuffers =
        d.pendingTransferBuffers ++
          (if d.uploadTransferBuffer.1 ≠ 0 then [d.uploadTransferBuffer.1]
           else [])) ∧
    DeviceState.fresh.WF ∧
    (∀ (ops : List DevOp) (d d' : DeviceState), d.WF →
      run ops d = some d' → (∀ op ∈ ops, op.createsSucceed) →
      d.uploadTransferBuffer.2 ≤ d'.uploadTransferBuffer.2) ∧
    (run c2Ops bufDev64 = some c2Dev3 ∧
      c2Dev3.uploadTransferBuffer.2 = 64 ∧
      c2Dev3.pendingTransferBuffers.length = 1 ∧
      createEvents c2Dev3.trace = 2 ∧
      (run (c2Ops.take 2) bufDev64).map (fun d => d.uploadTransferBuffer) =
        some (2, 16) ∧
      (run (c2Ops.take 1) bufDev64).map (fun d => d.uploadTransferBuffer) =
        some (2, 16)) := by
  refine ⟨?_, ?_, by decide, ?_, ?_⟩
  · intro d s ok h1 h2
    simp [DeviceState.ensureUploadTransferBuffer, h1, h2]
  · intro d s hA
    by_cases hB : d.uploadTransferBuffer.1 = 0
    · simp [DeviceState.ensureUploadTransferBuffer, hA, hB]
    · have hs : ¬ s ≤ d.uploadTransferBuffer.2 := fun hh => hA ⟨hB, hh⟩
      simp [DeviceState.ensureUploadTransferBuffer, hA, hB, hs]
  · intro ops d d' hWF hrun hc
    exact (run_WF_cap ops d d' hrun hWF hc).2
  · exact ⟨by rfl, by decide, by decide, by decide, by rfl, by rfl⟩

/-- Witness for C2's hypothesised conjuncts: the run conjunct applied to the
concrete three-upload scenario. -/
theorem claim_C2_staging_growth_amended_witness :
    bufDev64.uploadTransferBuffer.2 ≤ c2Dev3.uploadTransferBuffer.2 :=
  claim_C2_staging_growth_amended.2.2.2.1 c2Ops bufDev64 c2Dev3 (by decide)
    (by rfl) (by decide)

/-- C2 counterexample: the tracked staging capacity is *not* monotonically
non-decreasing across every sequence of operations — on a well-formed device
with a tracked 16-byte staging buffer, an upload whose native
`SDL_CreateGPUTransferBuffer` call fails resets the tracked capacity to 0
(src/device.rs:604-606). -/
theorem claim_C2_staging_growth_counterexample :
    ¬ (∀ (ops : List DevOp) (d d' : DeviceState), d.WF →
        run ops d = some d' →
        d.uploadTransferBuffer.2 ≤ d'.uploadTransferBuffer.2) :=
  fun hclaim =>
    absurd
      (hclaim [DevOp.opUploadToBuffer none 0 0 (List.replicate 64 0)
          ⟨false, true, true, true⟩] capDev16 capDev16Fail (by decide) (by rfl))
      (by decide)

end Sdl3Gs

namespace Sdl3Gs

/-- The only error `ensure_upload_transfer_buffer` can return is the native
creation failure. -/
theorem ensure_error_msg (d : DeviceState) (s : Nat) (ok : Bool) (e : String)
    (h : (d.ensureUploadTransferBuffer s ok).1 = Except.error e) :
    e = "SDL_CreateGPUTransferBuffer failed" := by
  by_cases hA : d.uploadTransferBuffer.1 ≠ 0 ∧ d.uploadTransferBuffer.2 ≥ s
  · simp [DeviceState.ensureUploadTransferBuffer, hA] at h
  · cases ok <;>
      simp [DeviceState.ensureUploadTransferBuffer, hA] at h
    exact h.symm

/-- In the non-range-error branch, `upload_to_buffer` never returns the
out-of-range error (any failure is one of the native-call errors). -/
theorem uploadToBuffer_not_range_error (d : DeviceState) (cp : Option Nat)
    (b : Int) (off : Nat) (data : List Nat) (o : UploadOracle)
    (slot : BufferSlot) (r : Except String Unit) (d' : DeviceState)
    (hget : d.buffers.get b = some slot)
    (hr : ¬ satAdd32 off (data.length % U32) > slot.size)
    (h : d.uploadToBuffer cp b off data o = some (r, d')) :
    r ≠ Except.error "data exceeds buffer size" := by
  unfold DeviceState.uploadToBuffer at h
  rw [hget] at h
  simp only at h
  rw [if_neg hr] at h
  rcases he : d.ensureUploadTransferBuffer (data.length % U32) o.createOk
    with ⟨re, d1⟩
  rw [he] at h
  cases re with
  | error e =>
    simp only [Option.some.injEq, Prod.mk.injEq] at h
    obtain ⟨hr0, hd⟩ := h
    subst hr0
    intro hc
    have he1 : e = "SDL_CreateGPUTransferBuffer failed" :=
      ensure_error_msg d _ o.createOk e (by rw [he])
    rw [he1] at hc
    exact absurd (Except.error.inj hc) (by decide)
  | ok transfer =>
    cases cp with
    | some pass =>
      simp only [Option.some.injEq, Prod.mk.injEq] at h
      obtain ⟨hr0, hd⟩ := h
      subst hr0
      intro hc
      cases hc
    | none =>
      cases hao : o.acquireOk with
      | false =>
        rw [hao] at h
        simp only [Bool.false_eq_true, if_false, Option.some.injEq,
          Prod.mk.injEq] at h
        obtain ⟨hr0, hd⟩ := h
        subst hr0
        intro hc
        exact absurd (Except.error.inj hc) (by decide)
      | true =>
        rw [hao] at h
        simp only [if_true] at h
        cases hbo : o.beginOk with
        | false =>
          rw [hbo] at h
          simp only [Bool.false_eq_true, if_false, Option.some.injEq,
            Prod.mk.injEq] at h
          obtain ⟨hr0, hd⟩ := h
          subst hr0
          intro hc
          exact absurd (Except.error.inj hc) (by decide)
        | true =>
          rw [hbo] at h
          simp only [if_true] at h
          cases hso : o.submitOk with
          | false =>
            rw [hso] at h
            simp only [Bool.false_eq_true, if_false, Option.some.injEq,
              Prod.mk.injEq] at h
            obtain ⟨hr0, hd⟩ := h
            subst hr0
            intro hc
            exact absurd (Except.error.inj hc) (by decide)
          | true =>
            rw [hso] at h
            simp only [if_true, Option.some.injEq, Prod.mk.injEq] at h
            obtain ⟨hr0, hd⟩ := h
            subst hr0
            intro hc
            cases hc

end Sdl3Gs

namespace Sdl3Gs

/-- C5 (amended): `upload_to_buffer` checks the range with a *saturating*
u32 addition before any native call: when `off ⊕ len` (saturated at
`2^32 - 1`) exceeds the declared size, it returns the out-of-range error
with the device state — registries, staging buffer, pending list, counter
and trace — completely unchanged; otherwise the out-of-range error is never
returned.  For every buffer whose declared size is below `u32::MAX` (and
data shorter than `2^32`), the saturated check coincides with the claimed
`offset + len > size` (the counterexample shows the one divergent corner,
`size = u32::MAX`).  Concretely, uploading 100 bytes at offset 0 into a
64-byte buffer fails with the out-of-range error and performs no native
call. -/
theorem claim_C5_upload_range_check_amended :
    (∀ (d : DeviceState) (cp : Option Nat) (b : Int) (off : Nat)
        (data : List Nat) (o : UploadOracle) (slot : BufferSlot),
      d.buffers.get b = some slot →
      satAdd32 off (data.length % U32) > slot.size →
      d.uploadToBuffer cp b off data o =
        some (Except.error "data exceeds buffer size", d)) ∧
    (∀ (d : DeviceState) (cp : Option Nat) (b : Int) (off : Nat)
        (data : List Nat) (o : UploadOracle) (slot : BufferSlot)
        (r : Except String Unit) (d' : DeviceState),
      d.buffers.get b = some slot →
      ¬ satAdd32 off (data.length % U32) > slot.size →
      d.uploadToBuffer cp b off data o = some (r, d') →
      r ≠ Except.error "data exceeds buffer size") ∧
    (∀ (d : DeviceState) (cp : Option Nat) (b : Int) (off : Nat)
        (data : List Nat) (o : UploadOracle) (slot : BufferSlot)
        (r : Except String Unit) (d' : DeviceState),
      d.buffers.get b = some slot →
      off + data.length ≤ slot.size →
      d.uploadToBuffer cp b off data o = some (r, d') →
      r ≠ Except.error "data exceeds buffer size") ∧
    (∀ off len S : Nat, len < U32 → S < U32 - 1 →
      (satAdd32 off (len % U32) > S ↔ off + len > S)) ∧
    bufDev64.uploadToBuffer none 0 0 (List.replicate 100 0) okOracle =
      some (Except.error "data exceeds buffer size", bufDev64) := by
  refine ⟨?_, ?_, ?_, ?_, by rfl⟩
  · intro d cp b off data o slot hget hrange
    unfold DeviceState.uploadToBuffer
    rw [hget]
    simp only
    rw [if_pos hrange]
  · intro d cp b off data o slot r d' hget hrange h
    exact uploadToBuffer_not_range_error d cp b off data o slot r d' hget
      hrange h
  · intro d cp b off data o slot r d' hget hle h
    refine uploadToBuffer_not_range_error d cp b off data o slot r d' hget
      ?_ h
    have h1 : data.length % U32 ≤ data.length := Nat.mod_le _ _
    simp only [satAdd32, gt_iff_lt, not_lt]
    exact le_trans (le_trans (min_le_left _ _)
      (Nat.add_le_add_left h1 off)) hle
  · intro off len S hlen hS
    have hm : len % U32 = len := Nat.mod_eq_of_lt hlen
    rw [hm]
    simp only [satAdd32, gt_iff_lt]
    constructor
    · intro h
      have := lt_of_lt_of_le h (min_le_left _ _)
      exact this
    · intro h
      rcases le_or_lt (off + len) (U32 - 1) with hc | hc
      · rw [min_eq_left hc]
        exact h
      · rw [min_eq_right (le_of_lt hc)]
        omega

/-- Witness for C5 at concrete inputs: the in-range upload of 4 bytes into
the 64-byte buffer does not return the out-of-range error. -/
theorem claim_C5_upload_range_check_amended_witness :
    (Except.ok () : Except String Unit) ≠
      Except.error "data exceeds buffer size" :=
  claim_C5_upload_range_check_amended.2.2.1 c10Dev0 none 0 0 [5, 5, 5, 5]
    okOracle ⟨1, 64⟩ (Except.ok ()) c10Dev1 (by decide) (by decide) (by rfl)

/-- C5 counterexample: for a buffer of declared size `u32::MAX`, uploading
one byte at offset `u32::MAX` does *not* fail with the out-of-range error —
the saturating check tops out at `u32::MAX` — even though
`offset + len = 2^32` exceeds the declared size; native calls are performed
(the trace grows). -/
theorem claim_C5_upload_range_check_counterexample :
    (bufDevMax.uploadToBuffer none 0 4294967295 [0] okOracle).map
        (fun rd => (rd.1, rd.2.trace.length)) =
      some (Except.ok (), 8) ∧
    4294967295 + ([0] : List Nat).length > 4294967295 := by
  exact ⟨by rfl, by decide⟩

end Sdl3Gs

namespace Sdl3Gs

/-- Shape of a `download_from_buffer` call that passes the range check: it
never returns the out-of-range error, and a successful result carries
exactly the effective number of bytes. -/
theorem download_past_check_shape (d : DeviceState) (b : Int)
    (off sz : Nat) (o : DownloadOracle) (slot : BufferSlot)
    (r : Except String (List Nat)) (d' : DeviceState)
    (hget : d.buffers.get b = some slot)
    (hguard : ¬ (sz = 0 ∧ slot.size < off))
    (hrange : ¬ satAdd32 off (if sz = 0 then slot.size - off else sz) >
      slot.size)
    (h : d.downloadFromBuffer b off sz o = some (r, d')) :
    r ≠ Except.error "requested range exceeds buffer size" ∧
    (∀ l, r = Except.ok l →
      l.length = (if sz = 0 then slot.size - off else sz)) := by
  unfold DeviceState.downloadFromBuffer at h
  rw [hget] at h
  simp only at h
  rw [if_neg hguard] at h
  rw [if_neg hrange] at h
  cases hco : o.createOk with
  | false =>
    rw [hco] at h
    simp only [Bool.false_eq_true, if_false, Option.some.injEq, Prod.mk.injEq] at h
    obtain ⟨hr0, hd⟩ := h
    subst hr0
    refine ⟨fun hc => absurd (Except.error.inj hc) (by decide), fun l hl => ?_⟩
    cases hl
  | true =>
    rw [hco] at h
    simp only [if_true] at h
    cases hao : o.acquireOk with
    | false =>
      rw [hao] at h
      simp only [Bool.false_eq_true, if_false, Option.some.injEq, Prod.mk.injEq] at h
      obtain ⟨hr0, hd⟩ := h
      subst hr0
      refine ⟨fun hc => absurd (Except.error.inj hc) (by decide), fun l hl => ?_⟩
      cases hl
    | true =>
      rw [hao] at h
      simp only [if_true] at h
      cases hbo : o.beginOk with
      | false =>
        rw [hbo] at h
        simp only [Bool.false_eq_true, if_false, Option.some.injEq, Prod.mk.injEq] at h
        obtain ⟨hr0, hd⟩ := h
        subst hr0
        refine ⟨fun hc => absurd (Except.error.inj hc) (by decide), fun l hl => ?_⟩
        cases hl
      | true =>
        rw [hbo] at h
        simp only [if_true] at h
        cases hso : o.submitOk with
        | false =>
          rw [hso] at h
          simp only [Bool.false_eq_true, if_false, Option.some.injEq, Prod.mk.injEq] at h
          obtain ⟨hr0, hd⟩ := h
          subst hr0
          refine ⟨fun hc => absurd (Except.error.inj hc) (by decide), fun l hl => ?_⟩
          cases hl
        | true =>
          rw [hso] at h
          simp only [if_true] at h
          cases hwo : o.waitOk with
          | false =>
            rw [hwo] at h
            simp only [Bool.false_eq_true, if_false, Option.some.injEq, Prod.mk.injEq] at h
            obtain ⟨hr0, hd⟩ := h
            subst hr0
            refine ⟨fun hc => absurd (Except.error.inj hc) (by decide), fun l hl => ?_⟩
            cases hl
          | true =>
            rw [hwo] at h
            simp only [if_true] at h
            cases hmo : o.mapOk with
            | false =>
              rw [hmo] at h
              simp only [Bool.false_eq_true, if_false, Option.some.injEq, Prod.mk.injEq] at h
              obtain ⟨hr0, hd⟩ := h
              subst hr0
              refine ⟨fun hc => absurd (Except.error.inj hc) (by decide), fun l hl => ?_⟩
              cases hl
            | true =>
              rw [hmo] at h
              simp only [if_true] at h
              simp only [if_true, Option.some.injEq, Prod.mk.injEq] at h
              obtain ⟨hr0, hd⟩ := h
              subst hr0
              refine ⟨fun hc => Except.noConfusion hc, fun l hl => ?_⟩
              rw [← Except.ok.inj hl]
              simp

end Sdl3Gs

namespace Sdl3Gs

/-- C6 (amended): in `download_from_buffer`, size 0 means "rest of the
buffer": for any offset within the declared size, the call never fails the
range check and a successful download returns exactly `size - offset`
bytes.  For a non-zero size the precondition check is the same saturating
comparison as upload's, run before any native call with the state returned
unchanged on failure; for every buffer with declared size below `u32::MAX`
this coincides with the claimed `offset + size > declared size` (the
counterexample shows the divergent corner).  Concretely, downloading with
size 0 at offset 10 from a 64-byte buffer yields 54 bytes, and size 60 at
offset 10 fails with the out-of-range error. -/
theorem claim_C6_download_size0_and_range_amended :
    (∀ (d : DeviceState) (b : Int) (off : Nat) (o : DownloadOracle)
        (slot : BufferSlot),
      d.buffers.get b = some slot → off ≤ slot.size →
      ∀ (r : Except String (List Nat)) (d' : DeviceState),
        d.downloadFromBuffer b off 0 o = some (r, d') →
        r ≠ Except.error "requested range exceeds buffer size" ∧
        (∀ l, r = Except.ok l → l.length = slot.size - off)) ∧
    (∀ (d : DeviceState) (b : Int) (off sz : Nat) (o : DownloadOracle)
        (slot : BufferSlot),
      d.buffers.get b = some slot → sz ≠ 0 →
      (satAdd32 off sz > slot.size →
        d.downloadFromBuffer b off sz o =
          some (Except.error "requested range exceeds buffer size", d)) ∧
      (¬ satAdd32 off sz > slot.size →
        ∀ (r : Except String (List Nat)) (d' : DeviceState),
          d.downloadFromBuffer b off sz o = some (r, d') →
          r ≠ Except.error "requested range exceeds buffer size")) ∧
    (∀ off sz S : Nat, S < U32 - 1 → (satAdd32 off sz > S ↔ off + sz > S)) ∧
    (bufDev64.downloadFromBuffer 0 10 0 okDownloadOracle).map
      (fun rd => rd.1.toOption.map List.length) = some (some 54) ∧
    bufDev64.downloadFromBuffer 0 10 60 okDownloadOracle =
      some (Except.error "requested range exceeds buffer size", bufDev64) := by
  refine ⟨?_, ?_, ?_, by rfl, by rfl⟩
  · intro d b off o slot hget hoff r d' h
    have hguard : ¬ ((0 : Nat) = 0 ∧ slot.size < off) :=
      fun hc => absurd hc.2 (not_lt.mpr hoff)
    have hrange : ¬ satAdd32 off
        (if (0 : Nat) = 0 then slot.size - off else 0) > slot.size := by
      simp only [if_pos rfl, satAdd32, gt_iff_lt, not_lt]
      exact le_trans (min_le_left _ _)
        (le_of_eq (Nat.add_sub_cancel' hoff))
    have := download_past_check_shape d b off 0 o slot r d' hget hguard
      hrange h
    refine ⟨this.1, fun l hl => ?_⟩
    have h2 := this.2 l hl
    simpa using h2
  · intro d b off sz o slot hget hsz
    have hguard : ¬ (sz = 0 ∧ slot.size < off) := fun hc => hsz hc.1
    constructor
    · intro hrange
      unfold DeviceState.downloadFromBuffer
      rw [hget]
      simp only
      rw [if_neg hguard, if_neg hsz, if_pos hrange]
    · intro hrange r d' h
      have hrange' : ¬ satAdd32 off
          (if sz = 0 then slot.size - off else sz) > slot.size := by
        rw [if_neg hsz]
        exact hrange
      exact (download_past_check_shape d b off sz o slot r d' hget hguard
        hrange' h).1
  · intro off sz S hS
    simp only [satAdd32, gt_iff_lt]
    constructor
    · intro h
      exact lt_of_lt_of_le h (min_le_left _ _)
    · intro h
      rcases le_or_lt (off + sz) (U32 - 1) with hc | hc
      · rw [min_eq_left hc]
        exact h
      · rw [min_eq_right (le_of_lt hc)]
        omega

/-- Witness for C6: the concrete rest-of-buffer download from offset 10 of
the 64-byte buffer returns exactly 54 bytes. -/
theorem claim_C6_download_size0_and_range_amended_witness :
    (List.map okDownloadOracle.contents (List.range 54)).length = 64 - 10 :=
  (claim_C6_download_size0_and_range_amended.1 bufDev64 0 10 okDownloadOracle
      ⟨1, 64⟩ (by decide) (by decide)
      (Except.ok (List.map okDownloadOracle.contents (List.range 54))) c6Dev1
      (by rfl)).2 _ rfl

/-- C6 counterexample: for a buffer of declared size `u32::MAX`, downloading
one byte from offset `u32::MAX` does *not* fail with the out-of-range error
(the saturating check tops out), even though the effective
`offset + size = 2^32` exceeds the declared size; the call goes through to
the native layer and returns one byte. -/
theorem claim_C6_download_size0_and_range_counterexample :
    (bufDevMax.downloadFromBuffer 0 4294967295 1 okDownloadOracle).map
        (fun rd => rd.1.toOption.map List.length) = some (some 1) ∧
    4294967295 + 1 > 4294967295 :=
  ⟨by rfl, by decide⟩

end Sdl3Gs
